import Mathlib

/-!
Shallow embedding of the VBC validation rule engine and proofs about its
specification.  Pandas dataframes become lists of association-list rows over a
`Cell` type (missing = `Cell.na`, mirroring NaN); Python floats become exact
rationals; the module-level flag-id counters become explicitly threaded
natural numbers; code whose column accesses can raise `KeyError` is embedded
in `Except String`.  Presentation-only text (descriptions, details and
formatted f-string values) is not modelled; string fields that the source
fills with compile-time literals are kept verbatim.  Numeric dataset columns
are assumed to hold numbers or NaN, the only values the CSV loader produces
for them.
-/

set_option maxHeartbeats 4000000
set_option maxRecDepth 8000

namespace VBC

/-- Decidable equality for results, so concrete runs can be checked by
decide. -/
instance {ε α : Type} [DecidableEq ε] [DecidableEq α] : DecidableEq (Except ε α) :=
  fun a b =>
    match a, b with
    | .ok x, .ok y =>
      if h : x = y then .isTrue (by rw [h]) else .isFalse (by simp [h])
    | .error x, .error y =>
      if h : x = y then .isTrue (by rw [h]) else .isFalse (by simp [h])
    | .ok _, .error _ => .isFalse (by simp)
    | .error _, .ok _ => .isFalse (by simp)

/-- Equality of rationals decided through subtraction, which reduces by fast
integer arithmetic; the library instance recurses once per unit of the
numerator and cannot evaluate on realistic dollar amounts. -/
instance (priority := 2000) : DecidableEq ℚ := fun a b =>
  if h : (a - b).num = 0 then
    .isTrue (by rwa [Rat.num_eq_zero, sub_eq_zero] at h)
  else
    .isFalse (fun hab => h (by rw [Rat.num_eq_zero, sub_eq_zero]; exact hab))

/-- Cell of a tabular dataset: missing (NaN), numeric, text, or boolean. -/
inductive Cell where
  | na
  | num (q : ℚ)
  | str (s : String)
  | boolV (b : Bool)
deriving DecidableEq, Repr

/-- pd.isna: true exactly for the missing value. -/
def Cell.isna : Cell → Bool
  | .na => true
  | _ => false

/-- pd.notna. -/
def Cell.notna (c : Cell) : Bool := !c.isna

def Cell.isStr : Cell → Bool
  | .str _ => true
  | _ => false

/-- Numeric view of a cell; Python booleans are numeric (True == 1). -/
def Cell.toQ : Cell → Option ℚ
  | .num q => some q
  | .boolV b => some (if b then 1 else 0)
  | _ => none

/-- Python truthiness of a cell value (NaN is truthy). -/
def Cell.truthy : Cell → Bool
  | .na => true
  | .num q => q ≠ 0
  | .str s => s ≠ ""
  | .boolV b => b

/-- Value < q, with NaN comparing false, as in pandas. -/
def cellLtQ (c : Cell) (q : ℚ) : Bool :=
  match c.toQ with
  | some x => x < q
  | none => false

/-- Value > q, with NaN comparing false. -/
def cellGtQ (c : Cell) (q : ℚ) : Bool :=
  match c.toQ with
  | some x => q < x
  | none => false

/-- Value == q, with NaN comparing false. -/
def cellEqQ (c : Cell) (q : ℚ) : Bool :=
  match c.toQ with
  | some x => x = q
  | none => false

/-- Value == s for a string s (non-text cells compare false). -/
def cellEqStr (c : Cell) (s : String) : Bool :=
  match c with
  | .str t => t = s
  | _ => false

/-- ASCII lower-casing of one character. -/
def charLower (c : Char) : Char :=
  match c with
  | 'A' => 'a' | 'B' => 'b' | 'C' => 'c' | 'D' => 'd' | 'E' => 'e' | 'F' => 'f'
  | 'G' => 'g' | 'H' => 'h' | 'I' => 'i' | 'J' => 'j' | 'K' => 'k' | 'L' => 'l'
  | 'M' => 'm' | 'N' => 'n' | 'O' => 'o' | 'P' => 'p' | 'Q' => 'q' | 'R' => 'r'
  | 'S' => 's' | 'T' => 't' | 'U' => 'u' | 'V' => 'v' | 'W' => 'w' | 'X' => 'x'
  | 'Y' => 'y' | 'Z' => 'z' | c => c

def strLower (s : String) : String := ⟨s.data.map charLower⟩

def listHasPre : List Char → List Char → Bool
  | [], _ => true
  | _ :: _, [] => false
  | a :: ps, b :: ls => a = b && listHasPre ps ls

def listHasSub (p : List Char) : List Char → Bool
  | [] => p.isEmpty
  | b :: ls => listHasPre p (b :: ls) || listHasSub p ls

/-- Python substring test `pat in hay`. -/
def strHas (hay pat : String) : Bool := listHasSub pat.data hay.data

def isWsChar (c : Char) : Bool := c = ' ' || c = '\t' || c = '\n' || c = '\r'

/-- Python str.strip(). -/
def strStrip (s : String) : String :=
  ⟨((s.data.dropWhile isWsChar).reverse.dropWhile isWsChar).reverse⟩

/-- Split a character list on a separator character, Python str.split style. -/
def listSplit (sep : Char) : List Char → List (List Char)
  | [] => [[]]
  | c :: rest =>
    let r := listSplit sep rest
    if c = sep then [] :: r
    else
      match r with
      | [] => [[c]]
      | h :: t => (c :: h) :: t

def digVal (c : Char) : Option ℕ :=
  if 48 ≤ c.toNat ∧ c.toNat ≤ 57 then some (c.toNat - 48) else none

def digitsToNat : List Char → Option ℕ
  | [] => none
  | l => l.foldl (fun acc c =>
      match acc, digVal c with
      | some n, some d => some (n * 10 + d)
      | _, _ => none) (some 0)

/-- Rendering of a rational for Python str(); floats of label columns are
never pattern-matched in the source, text columns hold `Cell.str`. -/
def ratPyRepr (q : ℚ) : String :=
  if q.den = 1 then toString q.num ++ ".0" else toString q.num ++ "/" ++ toString q.den

/-- Python str() of a cell value. -/
def Cell.pyStr : Cell → String
  | .na => "nan"
  | .str s => s
  | .boolV b => if b then "True" else "False"
  | .num q => ratPyRepr q

/-- Floor of a rational (kernel-computable). -/
def ratFloor (q : ℚ) : ℤ := q.num / q.den

theorem ratFloor_eq_floor (q : ℚ) : ratFloor q = ⌊q⌋ := Rat.floor_def.symm

/-- Kernel-computable embedding of an integer into the rationals. -/
def intToQ (n : ℤ) : ℚ :=
  { num := n, den := 1, den_nz := Nat.one_ne_zero, reduced := Nat.coprime_one_right _ }

theorem intToQ_eq (n : ℤ) : intToQ n = (n : ℚ) := by
  have h1 : (intToQ n).num = n := rfl
  have h2 : (intToQ n).den = 1 := rfl
  rw [← Rat.num_div_den (intToQ n), h1, h2]
  simp

/-- Kernel-computable embedding of a natural number into the rationals. -/
def natToQ (n : ℕ) : ℚ := intToQ n

theorem natToQ_eq (n : ℕ) : natToQ n = (n : ℚ) := by
  rw [natToQ, intToQ_eq]; norm_cast

/-- Python round() to the nearest integer, ties to even (banker's rounding). -/
def pyRound (q : ℚ) : ℤ :=
  if q - ratFloor q < 1/2 then ratFloor q
  else if 1/2 < q - ratFloor q then ratFloor q + 1
  else if ratFloor q % 2 = 0 then ratFloor q else ratFloor q + 1

/-- Python round(x, nd) for nd decimal digits. -/
def pyRoundTo (q : ℚ) (nd : ℕ) : ℚ := intToQ (pyRound (q * 10 ^ nd)) / natToQ (10 ^ nd)

/-- Python int(): truncation toward zero. -/
def pyTrunc (q : ℚ) : ℤ := if 0 ≤ q then ratFloor q else -ratFloor (-q)

/-- NaN-propagating arithmetic on optional rationals (none = NaN). -/
def oAdd : Option ℚ → Option ℚ → Option ℚ
  | some a, some b => some (a + b)
  | _, _ => none

def oSub : Option ℚ → Option ℚ → Option ℚ
  | some a, some b => some (a - b)
  | _, _ => none

def oMul : Option ℚ → Option ℚ → Option ℚ
  | some a, some b => some (a * b)
  | _, _ => none

def oDiv : Option ℚ → Option ℚ → Option ℚ
  | some a, some b => some (a / b)
  | _, _ => none

/-- NaN-rejecting comparison: `a > q` is false when a is NaN. -/
def oGtQ (a : Option ℚ) (q : ℚ) : Bool :=
  match a with
  | some x => q < x
  | none => false

def oLtQ (a : Option ℚ) (q : ℚ) : Bool :=
  match a with
  | some x => x < q
  | none => false

def oLeQ (a : Option ℚ) (q : ℚ) : Bool :=
  match a with
  | some x => x ≤ q
  | none => false

def oEqQ (a : Option ℚ) (q : ℚ) : Bool :=
  match a with
  | some x => x = q
  | none => false

/-- Back from an optional rational to a cell (NaN for none). -/
def ofO : Option ℚ → Cell
  | some q => .num q
  | none => .na

/-- Largest element of a list of rationals (0 for the empty list, which the
callers never hit). -/
def qMax : List ℚ → ℚ
  | [] => 0
  | x :: xs => xs.foldl max x

/-- One dataframe row: an association list from column names to cells. -/
abbrev Row := List (String × Cell)

/-- Tabular dataset: named columns and rows. -/
structure DataFrame where
  cols : List String
  rows : List Row
deriving DecidableEq, Repr

/-- row.get(col, default) on a pandas row. -/
def rowGetD (r : Row) (c : String) (d : Cell) : Cell := (r.lookup c).getD d

/-- All cells of one column. -/
def DataFrame.col (df : DataFrame) (c : String) : List Cell :=
  df.rows.map (fun r => rowGetD r c .na)

/-- df[col], raising KeyError when the column is absent. -/
def DataFrame.colE (df : DataFrame) (c : String) : Except String (List Cell) :=
  if c ∈ df.cols then .ok (df.col c) else .error ("KeyError: " ++ c)

/-- Column .sum() in pandas: NaN values are skipped. -/
def colSum (cells : List Cell) : ℚ := (cells.filterMap Cell.toQ).sum

/-- Improvement candidate record built by the oncology quality-gate rule. -/
structure Candidate where
  measure : Cell
  currentPoints : ℚ
  maxPoints : ℚ
  gap : ℚ
  rate : Cell
  target : Cell
deriving DecidableEq, Repr

/-- ValidationFlag. The flag id "CAT-007" is modelled as the pair
(idTag, idNum); descriptions, details and formatted metric values are
presentation text and are not modelled, while expected_value strings that the
source fills with plain literals are kept verbatim.  The improvement-candidate
list stored by one rule in related_metrics is hoisted into a typed field. -/
structure Flag where
  idTag : String := ""
  idNum : ℕ := 0
  severity : String
  category : String
  metricName : String
  expectedValue : String := ""
  episodeType : Cell := .str "ALL"
  contractId : String
  related : List (String × Cell) := []
  candidates : List Candidate := []
deriving DecidableEq, Repr

/-- Contract metadata dict; fields read through .get(...) are optional. -/
structure Contract where
  contractId : String
  specialty : Option String := none
  attributedMembers : Option ℚ := none
  memberMonths : Option ℚ := none
  sharingRateSavings : Option ℚ := none
  qualityGateMinimum : Option ℚ := none
  pathwayAdherenceTarget : Option ℚ := none
  novelTherapyCarveout : Option Bool := none
  novelTherapyLookbackMonths : Option ℤ := none
  dataAsOf : Option String := none
deriving DecidableEq, Repr

/-- A {min, max, expected, target, min_acceptable, max_acceptable} block of
the reference-range configuration. -/
structure RangeDef where
  minQ : Option ℚ := none
  maxQ : Option ℚ := none
  minAcceptable : Option ℚ := none
  maxAcceptable : Option ℚ := none
  expected : Option ℚ := none
  target : Option ℚ := none
deriving DecidableEq, Repr

/-- Reference-range configuration document for one specialty. -/
structure RefRanges where
  episodeCostRanges : List (String × RangeDef) := []
  utilizationRangesMa : List (String × RangeDef) := []
  qualityTargets : List (String × RangeDef) := []
  pathwayAdherenceBenchmarks : List (String × RangeDef) := []
  incidenceRatesMaPer1000 : List (String × RangeDef) := []
deriving DecidableEq, Repr

/-! ## Schema validation (src/validation/schema.py) -/

def EXPECTED_COLUMNS (ds : String) : List String :=
  if ds = "msk_episodes" then
    ["episode_type", "episode_count", "avg_episode_cost", "target_price",
     "total_cost", "total_target", "variance_pct", "implant_cost_avg",
     "facility_cost_avg", "professional_cost_avg", "post_acute_cost_avg",
     "readmission_cost_avg", "discharge_home_pct", "discharge_snf_pct",
     "discharge_irf_pct", "discharge_other_pct", "readmission_rate",
     "er_visit_rate_90d", "ssi_rate", "revision_rate_12mo", "avg_los_days",
     "avg_opioid_mme_discharge", "prom_collection_rate", "prom_improvement_rate",
     "prior_year_episode_count", "prior_year_avg_cost",
     "risk_score_actual", "risk_score_expected"]
  else if ds = "msk_quality" then
    ["measure_name", "measure_id", "numerator", "denominator", "rate",
     "target", "max_points", "points_earned", "prior_year_rate",
     "benchmark_50th", "benchmark_90th"]
  else if ds = "onc_episodes" then
    ["cancer_type", "stage_group", "line_of_therapy", "episode_count",
     "avg_episode_cost", "target_price", "total_cost", "total_target",
     "variance_pct", "drug_cost_avg", "administration_cost_avg",
     "inpatient_cost_avg", "er_cost_avg", "imaging_cost_avg", "lab_cost_avg",
     "supportive_care_cost_avg", "other_cost_avg", "pathway_adherence_rate",
     "pathway_regimen_pct", "non_pathway_regimen_pct",
     "biosimilar_utilization_rate", "office_infusion_pct", "hopd_infusion_pct",
     "hospitalization_rate", "er_visit_rate", "prior_year_episode_count",
     "prior_year_avg_cost", "risk_score_actual", "risk_score_expected"]
  else if ds = "onc_quality" then
    ["measure_name", "measure_id", "numerator", "denominator", "rate",
     "target", "max_points", "points_earned", "prior_year_rate",
     "national_benchmark"]
  else if ds = "onc_drug_detail" then
    ["drug_category", "drug_name", "is_biosimilar", "is_pathway",
     "cancer_types_used", "total_claims", "total_cost", "avg_cost_per_claim",
     "site_of_service_office_pct", "site_of_service_hopd_pct",
     "site_of_service_home_pct", "prior_year_total_cost", "prior_year_claims",
     "fda_approval_date", "is_novel_therapy"]
  else []

def CRITICAL_FIELDS (ds : String) : List String :=
  if ds = "msk_episodes" then
    ["episode_type", "episode_count", "avg_episode_cost", "target_price"]
  else if ds = "msk_quality" then
    ["measure_name", "measure_id", "max_points", "points_earned"]
  else if ds = "onc_episodes" then
    ["cancer_type", "episode_count", "avg_episode_cost", "target_price"]
  else if ds = "onc_quality" then
    ["measure_name", "measure_id", "max_points", "points_earned"]
  else if ds = "onc_drug_detail" then
    ["drug_name", "total_claims", "total_cost"]
  else []

def NUMERIC_COLUMNS (ds : String) : List String :=
  if ds = "msk_episodes" then
    ["episode_count", "avg_episode_cost", "target_price", "total_cost",
     "total_target", "variance_pct", "implant_cost_avg", "facility_cost_avg",
     "professional_cost_avg", "post_acute_cost_avg", "readmission_cost_avg",
     "discharge_home_pct", "discharge_snf_pct", "discharge_irf_pct",
     "discharge_other_pct", "readmission_rate", "er_visit_rate_90d",
     "ssi_rate", "revision_rate_12mo", "avg_los_days",
     "avg_opioid_mme_discharge", "prom_collection_rate",
     "prom_improvement_rate", "prior_year_episode_count",
     "prior_year_avg_cost", "risk_score_actual", "risk_score_expected"]
  else if ds = "onc_episodes" then
    ["episode_count", "avg_episode_cost", "target_price", "total_cost",
     "total_target", "variance_pct", "drug_cost_avg", "administration_cost_avg",
     "inpatient_cost_avg", "er_cost_avg", "imaging_cost_avg", "lab_cost_avg",
     "supportive_care_cost_avg", "other_cost_avg", "pathway_adherence_rate",
     "pathway_regimen_pct", "non_pathway_regimen_pct",
     "biosimilar_utilization_rate", "office_infusion_pct", "hopd_infusion_pct",
     "hospitalization_rate", "er_visit_rate", "prior_year_episode_count",
     "prior_year_avg_cost", "risk_score_actual", "risk_score_expected"]
  else []

def RATE_COLUMNS (ds : String) : List String :=
  if ds = "msk_episodes" then
    ["discharge_home_pct", "discharge_snf_pct", "discharge_irf_pct",
     "discharge_other_pct", "readmission_rate", "er_visit_rate_90d",
     "ssi_rate", "revision_rate_12mo", "prom_collection_rate",
     "prom_improvement_rate"]
  else if ds = "onc_episodes" then
    ["pathway_adherence_rate", "pathway_regimen_pct", "non_pathway_regimen_pct",
     "biosimilar_utilization_rate", "office_infusion_pct", "hopd_infusion_pct",
     "hospitalization_rate", "er_visit_rate"]
  else []

/-- Check 1a: expected columns that are missing (RED each). -/
def schemaMissingFlags (df : DataFrame) (ds : String) (cid : String) : List Flag :=
  ((EXPECTED_COLUMNS ds).filter (fun c => !(df.cols.contains c))).map fun col =>
    { severity := "RED", category := "schema", metricName := col,
      expectedValue := "Column should exist", contractId := cid }

/-- Check 1b: present columns outside the expected set (YELLOW each). -/
def schemaExtraFlags (df : DataFrame) (ds : String) (cid : String) : List Flag :=
  (df.cols.filter (fun c => !((EXPECTED_COLUMNS ds).contains c))).map fun col =>
    { severity := "YELLOW", category := "schema", metricName := col,
      expectedValue := "Column not expected", contractId := cid }

/-- Check 2, one column: flagged when its non-null values are not of numeric
dtype (a pandas object column, i.e. one holding text). -/
def dtypeColFlag (df : DataFrame) (cid col : String) : Option Flag :=
  let nonNull := (df.col col).filter Cell.notna
  if nonNull.isEmpty then none
  else if nonNull.any Cell.isStr then
    some { severity := "RED", category := "schema", metricName := col,
           expectedValue := "numeric", contractId := cid }
  else none

/-- Check 2: numeric columns that are not of numeric dtype. -/
def schemaDtypeFlags (df : DataFrame) (ds : String) (cid : String) : List Flag :=
  ((NUMERIC_COLUMNS ds).filter (fun c => df.cols.contains c)).filterMap (dtypeColFlag df cid)

/-- Check 3, one column: flagged when a critical field has any null. -/
def criticalColFlag (df : DataFrame) (cid col : String) : Option Flag :=
  if 0 < (df.col col).countP Cell.isna then
    some { severity := "RED", category := "schema", metricName := col,
           expectedValue := "No nulls in critical field", contractId := cid }
  else none

/-- Check 3: critical fields with any null. -/
def schemaCriticalFlags (df : DataFrame) (ds : String) (cid : String) : List Flag :=
  ((CRITICAL_FIELDS ds).filter (fun c => df.cols.contains c)).filterMap (criticalColFlag df cid)

/-- Check 4a: negative episode counts (one flag for the dataset). -/
def schemaEpCountFlags (df : DataFrame) (cid : String) : List Flag :=
  if "episode_count" ∈ df.cols then
    if (df.col "episode_count").any (fun c => cellLtQ c 0) then
      [{ severity := "RED", category := "schema", metricName := "episode_count",
         expectedValue := ">= 0", contractId := cid }]
    else []
  else []

/-- Numeric columns of the dataset whose name contains "cost". -/
def schemaCostCols (df : DataFrame) (ds : String) : List String :=
  df.cols.filter (fun c => strHas (strLower c) "cost" && (NUMERIC_COLUMNS ds).contains c)

/-- Check 4b, one column: flagged when a cost column holds a negative
non-missing value. -/
def negCostColFlag (df : DataFrame) (cid col : String) : Option Flag :=
  if (df.col col).any (fun c => c.notna && cellLtQ c 0) then
    some { severity := "RED", category := "schema", metricName := col,
           expectedValue := ">= 0", contractId := cid }
  else none

/-- Check 4b: cost columns with negative non-missing values (RED per column). -/
def schemaNegCostFlags (df : DataFrame) (ds : String) (cid : String) : List Flag :=
  (schemaCostCols df ds).filterMap (negCostColFlag df cid)

/-- Check 4c: rate columns limited to [0, 1], with the 0-100 percentage-scale
heuristic (YELLOW when the column maximum is in (1, 100], RED otherwise). -/
def rateColFlag (df : DataFrame) (cid col : String) : Option Flag :=
  let nonNull := (df.col col).filter Cell.notna
  if nonNull.isEmpty then none
  else
    let outOfRange := nonNull.filter (fun c => cellLtQ c 0 || cellGtQ c 1)
    if outOfRange.isEmpty then none
    else if 1 < qMax (nonNull.filterMap Cell.toQ) ∧ qMax (nonNull.filterMap Cell.toQ) ≤ 100 then
      some { severity := "YELLOW", category := "schema", metricName := col,
             expectedValue := "0-1 proportion scale", contractId := cid }
    else
      some { severity := "RED", category := "schema", metricName := col,
             expectedValue := "Between 0 and 1", contractId := cid }

def schemaRateFlags (df : DataFrame) (ds : String) (cid : String) : List Flag :=
  ((RATE_COLUMNS ds).filter (fun c => df.cols.contains c)).filterMap (rateColFlag df cid)

def dispCols : List String :=
  ["discharge_home_pct", "discharge_snf_pct", "discharge_irf_pct", "discharge_other_pct"]

/-- Check 5: discharge dispositions must sum to about 1 per surgical MSK row. -/
def schemaDispFlags (df : DataFrame) (ds : String) (cid : String) : List Flag :=
  if ds = "msk_episodes" ∧ ∀ c ∈ dispCols, c ∈ df.cols then
    df.rows.filterMap fun r =>
      let epType := rowGetD r "episode_type" (.str "unknown")
      if strHas epType.pyStr "Conservative" then none
      else
        let vals := dispCols.filterMap (fun c => (rowGetD r c .na).toQ)
        if vals.isEmpty then none
        else if 0.02 < |vals.sum - 1| then
          some { severity := "YELLOW", category := "schema",
                 metricName := "discharge_disposition_sum",
                 expectedValue := "~1.0 (within 2%)", episodeType := epType,
                 contractId := cid }
        else none
  else []

/-- All schema checks, in source order. -/
def schemaCheckFlags (df : DataFrame) (ds : String) (cid : String) : List Flag :=
  schemaMissingFlags df ds cid ++ schemaExtraFlags df ds cid ++
  schemaDtypeFlags df ds cid ++ schemaCriticalFlags df ds cid ++
  schemaEpCountFlags df cid ++ schemaNegCostFlags df ds cid ++
  schemaRateFlags df ds cid ++ schemaDispFlags df ds cid

/-- The synthetic GREEN pass flag. -/
def schemaPassFlag (cid : String) : Flag :=
  { severity := "GREEN", category := "schema", metricName := "schema_check",
    expectedValue := "All checks pass", contractId := cid }

/-- validate_schema: all checks, with a GREEN pass flag when nothing fired. -/
def validate_schema (df : DataFrame) (ds : String) (contract : Contract) : List Flag :=
  let flags := schemaCheckFlags df ds contract.contractId
  if flags.isEmpty then [schemaPassFlag contract.contractId] else flags

/-! ## Arithmetic reconciliation (src/validation/arithmetic.py) -/

/-- measure_id .str.contains("COMP", na=False) on one cell. -/
def cellContains (c : Cell) (pat : String) : Bool :=
  match c with
  | .str s => strHas s pat
  | _ => false

/-- Episode label: the raw episode_type value, or the trimmed concatenation of
cancer_type, stage_group and line_of_therapy for oncology frames. -/
def epLabel (hasEpisodeType : Bool) (r : Row) : Cell :=
  if hasEpisodeType then rowGetD r "episode_type" (.str "unknown")
  else
    .str (strStrip ((rowGetD r "cancer_type" (.str "")).pyStr ++ " " ++
      (rowGetD r "stage_group" (.str "")).pyStr ++ " " ++
      (rowGetD r "line_of_therapy" (.str "")).pyStr))

def mskComponents : List String :=
  ["implant_cost_avg", "facility_cost_avg", "professional_cost_avg",
   "post_acute_cost_avg", "readmission_cost_avg"]

def oncComponents : List String :=
  ["drug_cost_avg", "administration_cost_avg", "inpatient_cost_avg",
   "er_cost_avg", "imaging_cost_avg", "lab_cost_avg",
   "supportive_care_cost_avg", "other_cost_avg"]

/-- Check 1: episode_count x avg_episode_cost must reconcile with total_cost
to within 1 percent (of the signed total_cost, as the source divides by it). -/
def arithCheck1 (lab : Cell) (cid : String) (k : ℚ) (r : Row) : List Flag :=
  match (rowGetD r "avg_episode_cost" (.num 0)).toQ,
        (rowGetD r "total_cost" (.num 0)).toQ with
  | some a, some t =>
    if t ≠ 0 ∧ 1/100 < |k * a - t| / t then
      [{ severity := "RED", category := "arithmetic",
         metricName := "episode_cost_reconciliation", episodeType := lab,
         contractId := cid,
         related := [("episode_count", .num k), ("avg_episode_cost", .num a),
                     ("total_cost", .num t)] }]
    else []
  | _, _ => []

/-- Check 2: episode_count x target_price vs total_target, 1 percent. -/
def arithCheck2 (lab : Cell) (cid : String) (k : ℚ) (r : Row) : List Flag :=
  match (rowGetD r "target_price" (.num 0)).toQ,
        (rowGetD r "total_target" (.num 0)).toQ with
  | some tp, some tt =>
    if tt ≠ 0 ∧ 1/100 < |k * tp - tt| / tt then
      [{ severity := "RED", category := "arithmetic",
         metricName := "target_reconciliation", episodeType := lab,
         contractId := cid,
         related := [("episode_count", .num k), ("target_price", .num tp),
                     ("total_target", .num tt)] }]
    else []
  | _, _ => []

/-- Check 3: reported variance_pct vs (avg_cost - target) / target, 0.005. -/
def arithCheck3 (lab : Cell) (cid : String) (r : Row) : List Flag :=
  match (rowGetD r "target_price" (.num 0)).toQ,
        (rowGetD r "avg_episode_cost" (.num 0)).toQ,
        (rowGetD r "variance_pct" (.num 0)).toQ with
  | some tp, some a, some v =>
    if tp ≠ 0 ∧ 1/200 < |(a - tp) / tp - v| then
      [{ severity := "YELLOW", category := "arithmetic",
         metricName := "variance_calculation", episodeType := lab,
         contractId := cid,
         related := [("avg_episode_cost", .num a), ("target_price", .num tp),
                     ("variance_pct", .num v)] }]
    else []
  | _, _, _ => []

/-- Checks 4 and 4b: specialty cost components must sum to avg cost within
5 percent. -/
def arithCheck4 (comps : List String) (lab : Cell) (cid : String) (r : Row) : List Flag :=
  let nonNullVals := comps.filterMap (fun c => ((rowGetD r c .na).toQ).map (fun v => (c, v)))
  match (rowGetD r "avg_episode_cost" (.num 0)).toQ with
  | some a =>
    if ¬nonNullVals.isEmpty ∧ 0 < a then
      let compSum := (nonNullVals.map (fun p => p.2)).sum
      if 1/20 < |compSum - a| / a then
        [{ severity := "YELLOW", category := "arithmetic",
           metricName := "cost_component_sum", episodeType := lab,
           contractId := cid,
           related := nonNullVals.map (fun p => (p.1, Cell.num p.2)) }]
      else []
    else []
  | none => []

/-- Per-episode-row arithmetic checks 1 to 4b, in source order. -/
def arithRow (hasEpT : Bool) (specialty : String) (epsCols : List String)
    (cid : String) (r : Row) : List Flag :=
  let lab := epLabel hasEpT r
  let count := rowGetD r "episode_count" (.num 0)
  match count.toQ with
  | none => []
  | some k =>
    if k = 0 then []
    else
      arithCheck1 lab cid k r ++ arithCheck2 lab cid k r ++ arithCheck3 lab cid r ++
      (if specialty = "MSK" ∧ "implant_cost_avg" ∈ epsCols then
        arithCheck4 mskComponents lab cid r else []) ++
      (if specialty = "Oncology" ∧ "drug_cost_avg" ∈ epsCols then
        arithCheck4 oncComponents lab cid r else [])

/-- Check 7: numerator / denominator vs reported rate per quality measure. -/
def arithRateRow (cid : String) (r : Row) : List Flag :=
  match (rowGetD r "numerator" .na).toQ, (rowGetD r "denominator" .na).toQ,
        (rowGetD r "rate" .na).toQ with
  | some n, some d, some rt =>
    if 0 < d ∧ 1/200 < |n / d - rt| then
      [{ severity := "RED", category := "arithmetic",
         metricName := "quality_rate_calculation", episodeType := .str "Quality",
         contractId := cid,
         related := [("measure", rowGetD r "measure_name" (.str "unknown")),
                     ("numerator", .num n), ("denominator", .num d),
                     ("rate", .num rt)] }]
    else []
  | _, _, _ => []

/-- Checks 6 and 7 on the quality frame.  The unguarded column accesses of the
source (quality_df["measure_id"], and the points columns when a composite row
exists) surface as KeyError. -/
def arithQualityFlags (qual : DataFrame) (cid : String) : Except String (List Flag) := do
  let _ ← qual.colE "measure_id"
  let noComp := qual.rows.filter (fun r => !cellContains (rowGetD r "measure_id" .na) "COMP")
  let compRows := qual.rows.filter (fun r => cellContains (rowGetD r "measure_id" .na) "COMP")
  let compFlags ←
    match compRows with
    | [] => pure []
    | r :: _ => do
      let _ ← qual.colE "points_earned"
      let _ ← qual.colE "max_points"
      let calcEarned := colSum (noComp.map (fun row => rowGetD row "points_earned" .na))
      let reported := rowGetD r "points_earned" (.num 0)
      let mk : Flag :=
        { severity := "YELLOW", category := "arithmetic",
          metricName := "quality_points_sum", episodeType := .str "ALL",
          contractId := cid }
      match reported with
      | .na => pure []
      | .num re => pure (if calcEarned ≠ re then [mk] else [])
      | .boolV b => pure (if calcEarned ≠ (if b then (1 : ℚ) else 0) then [mk] else [])
      | .str _ => pure [mk]
  return compFlags ++ noComp.flatMap (arithRateRow cid)

/-- Check 8: attributed_members x 12 vs member_months, 5 percent. -/
def arithMemberFlags (contract : Contract) : List Flag :=
  let members := contract.attributedMembers.getD 0
  let mm := contract.memberMonths.getD 0
  if 0 < members ∧ 0 < mm then
    if 1/20 < |members * 12 - mm| / mm then
      [{ severity := "YELLOW", category := "arithmetic",
         metricName := "member_months_check", episodeType := .str "ALL",
         contractId := contract.contractId }]
    else []
  else []

/-- validate_arithmetic. -/
def validate_arithmetic (eps qual : DataFrame) (contract : Contract) :
    Except String (List Flag) := do
  let cid := contract.contractId
  let specialty := contract.specialty.getD ""
  let hasEpT := "episode_type" ∈ eps.cols
  let epFlags := eps.rows.flatMap (arithRow hasEpT specialty eps.cols cid)
  let qFlags ← arithQualityFlags qual cid
  return epFlags ++ qFlags ++ arithMemberFlags contract

/-! ## Range checks (src/validation/range_checks.py) -/

def MSK_EP_TYPE_MAP (c : Cell) : Option String :=
  match c with
  | .str s =>
    ([("TKR", "TKR"), ("THR", "THR"),
      ("Spinal Fusion 1-2", "spinal_fusion_1_2"),
      ("Spinal Fusion 3+", "spinal_fusion_3_plus"),
      ("Knee Arthroscopy", "knee_arthroscopy"),
      ("Rotator Cuff", "rotator_cuff"),
      ("Conservative LBP", "conservative_lbp"),
      ("Conservative Joint", "conservative_joint")] : List (String × String)).lookup s
  | _ => none

def ONC_EP_TYPE_MAP (c s l : Cell) : Option String :=
  match c, s, l with
  | .str cs, .str ss, .str ls =>
    ([(("Breast", "Early", "1L"), "breast_early"),
      (("Breast", "Metastatic", "1L"), "breast_metastatic"),
      (("Breast", "Metastatic", "2L+"), "breast_metastatic"),
      (("Lung", "NSCLC", "1L"), "lung_nsclc_1L"),
      (("Lung", "NSCLC", "2L+"), "lung_nsclc_2L_plus"),
      (("Colorectal", "Adjuvant", "1L"), "colorectal_adjuvant"),
      (("Colorectal", "Metastatic", "1L"), "colorectal_metastatic"),
      (("Prostate", "Early", "1L"), "prostate_early"),
      (("Prostate", "Advanced", "1L"), "prostate_advanced")] :
        List ((String × String × String) × String)).lookup (cs, ss, ls)
  | _, _, _ => none

/-- _check_range: a single value against a {min,max,expected} or
{max,target} range definition. -/
def checkRange (value : Cell) (rd : RangeDef) (metric : String) (epLab : Cell)
    (cid : String) : Option Flag :=
  match value.toQ with
  | none => none
  | some v =>
    let minv := rd.minQ.orElse (fun _ => rd.minAcceptable)
    let maxv := rd.maxQ.orElse (fun _ => rd.maxAcceptable)
    let expectedv := rd.expected.orElse (fun _ => rd.target)
    match minv, maxv with
    | some mn, some mx =>
      if v < mn ∨ mx < v then
        some { severity := "RED", category := "range", metricName := metric,
               episodeType := epLab, contractId := cid }
      else
        match expectedv with
        | some e =>
          if 0 < mx - mn ∧ 2/5 < |v - e| / (mx - mn) then
            some { severity := "YELLOW", category := "range", metricName := metric,
                   episodeType := epLab, contractId := cid }
          else none
        | none => none
    | none, some mx =>
      if mx < v then
        some { severity := "RED", category := "range", metricName := metric,
               episodeType := epLab, contractId := cid }
      else
        match rd.target with
        | some t =>
          if t < v then
            some { severity := "YELLOW", category := "range", metricName := metric,
                   episodeType := epLab, contractId := cid }
          else none
        | none => none
    | _, _ => none

/-- MSK average-episode-cost range check for one row. -/
def rangeMskCostRow (rr : RefRanges) (cid : String) (r : Row) : List Flag :=
  let epType := rowGetD r "episode_type" (.str "")
  match MSK_EP_TYPE_MAP epType with
  | some key =>
    match rr.episodeCostRanges.lookup key with
    | some rd =>
      (checkRange (rowGetD r "avg_episode_cost" .na) rd "avg_episode_cost" epType cid).toList
    | none => []
  | none => []

/-- MSK utilization range checks (opioid MME, PROM collection) for one row;
rows whose episode type contains "Conservative" are skipped. -/
def rangeMskUtilRow (rr : RefRanges) (cid : String) (r : Row) : List Flag :=
  let epType := rowGetD r "episode_type" (.str "")
  if strHas epType.pyStr "Conservative" then []
  else
    (if (rowGetD r "avg_opioid_mme_discharge" .na).notna then
      match rr.utilizationRangesMa.lookup "opioid_mme_discharge_avg" with
      | some rd =>
        (checkRange (rowGetD r "avg_opioid_mme_discharge" .na) rd
          "avg_opioid_mme_discharge" epType cid).toList
      | none => []
    else []) ++
    (if (rowGetD r "prom_collection_rate" .na).notna then
      match rr.utilizationRangesMa.lookup "prom_collection_rate" with
      | some rd =>
        (checkRange (rowGetD r "prom_collection_rate" .na) rd
          "prom_collection_rate" epType cid).toList
      | none => []
    else [])

def mskQualityTargetPairs : List (String × String) :=
  [("readmission_rate", "readmit_90day"), ("er_visit_rate_90d", "er_visit_90day"),
   ("ssi_rate", "ssi_rate"), ("revision_rate_12mo", "revision_12mo")]

/-- MSK quality-target range checks for one row; Conservative rows are
skipped. -/
def rangeMskQualityRow (rr : RefRanges) (cid : String) (r : Row) : List Flag :=
  let epType := rowGetD r "episode_type" (.str "")
  if strHas epType.pyStr "Conservative" then []
  else
    mskQualityTargetPairs.flatMap fun p =>
      let val := rowGetD r p.1 .na
      if val.notna then
        match rr.qualityTargets.lookup p.2 with
        | some rd => (checkRange val rd p.1 epType cid).toList
        | none => []
      else []

/-- Oncology cost and pathway-adherence range checks for one row. -/
def rangeOncRow (rr : RefRanges) (cid : String) (r : Row) : List Flag :=
  let cancer := rowGetD r "cancer_type" (.str "")
  let stage := rowGetD r "stage_group" (.str "")
  let line := rowGetD r "line_of_therapy" (.str "")
  let epLab : Cell := .str (strStrip (cancer.pyStr ++ " " ++ stage.pyStr ++ " " ++ line.pyStr))
  let refKey := ONC_EP_TYPE_MAP cancer stage line
  (match refKey with
   | some key =>
     match rr.episodeCostRanges.lookup key with
     | some rd =>
       (checkRange (rowGetD r "avg_episode_cost" .na) rd "avg_episode_cost" epLab cid).toList
     | none => []
   | none => []) ++
  (match refKey with
   | some key =>
     match rr.pathwayAdherenceBenchmarks.lookup key with
     | some bench =>
       match (rowGetD r "pathway_adherence_rate" .na).toQ with
       | some adherence =>
         let minAcc := bench.minAcceptable.getD 0
         let expectedv := bench.expected.getD 0
         if adherence < minAcc then
           [{ severity := "RED", category := "range",
              metricName := "pathway_adherence_rate", episodeType := epLab,
              contractId := cid }]
         else if adherence < expectedv then
           [{ severity := "YELLOW", category := "range",
              metricName := "pathway_adherence_rate", episodeType := epLab,
              contractId := cid }]
         else []
       | none => []
     | none => []
   | none => [])

/-- validate_ranges. -/
def validate_ranges (eps : DataFrame) (rr : RefRanges) (contract : Contract) : List Flag :=
  let cid := contract.contractId
  let specialty := contract.specialty.getD ""
  if specialty = "MSK" then
    eps.rows.flatMap (rangeMskCostRow rr cid) ++
    eps.rows.flatMap (rangeMskUtilRow rr cid) ++
    eps.rows.flatMap (rangeMskQualityRow rr cid)
  else if specialty = "Oncology" then
    eps.rows.flatMap (rangeOncRow rr cid)
  else []

/-! ## MSK specialty rules (src/validation/msk_rules.py) -/

/-- Implant cost ratio benchmark (max ratio) by episode type. -/
def IMPLANT_RATIO_BENCHMARKS (c : Cell) : Option ℚ :=
  match c with
  | .str s =>
    ([("TKR", (1/5 : ℚ)), ("THR", 1/5), ("Spinal Fusion 1-2", 1/4),
      ("Spinal Fusion 3+", 1/4), ("Rotator Cuff", 1/5),
      ("Knee Arthroscopy", 1/10)] : List (String × ℚ)).lookup s
  | _ => none

/-- Rule 1: implant cost as a share of episode cost vs benchmark. -/
def mskImplantRow (cid : String) (r : Row) : List Flag :=
  let epType := rowGetD r "episode_type" (.str "")
  match IMPLANT_RATIO_BENCHMARKS epType with
  | none => []
  | some maxRatio =>
    match (rowGetD r "implant_cost_avg" .na).toQ, (rowGetD r "avg_episode_cost" .na).toQ with
    | some implant, some avg =>
      if avg ≠ 0 ∧ maxRatio < implant / avg then
        [{ severity := "RED", category := "specialty",
           metricName := "implant_cost_ratio", episodeType := epType,
           contractId := cid,
           related := [("implant_cost_avg", .num implant),
                       ("avg_episode_cost", .num avg),
                       ("implant_ratio", .num (pyRoundTo (implant / avg) 4)),
                       ("benchmark_max", .num maxRatio),
                       ("risk_score_actual", rowGetD r "risk_score_actual" .na),
                       ("risk_score_expected", rowGetD r "risk_score_expected" .na)] }]
      else []
    | _, _ => []

/-- Rule 2: knee arthroscopy volume per 1000 attributed members. -/
def mskArthroscopyFlags (eps : DataFrame) (members : ℚ) (cid : String) : List Flag :=
  match eps.rows.filter (fun r => cellEqStr (rowGetD r "episode_type" .na) "Knee Arthroscopy") with
  | [] => []
  | r :: _ =>
    if 0 < members then
      match (rowGetD r "episode_count" (.num 0)).toQ with
      | some k =>
        if 25 < k / (members / 1000) then
          [{ severity := "RED", category := "specialty",
             metricName := "arthroscopy_volume",
             expectedValue := "15-25/1,000 for MA population",
             episodeType := .str "Knee Arthroscopy", contractId := cid,
             related := [("episode_count", .num k),
                         ("attributed_members", .num members),
                         ("rate_per_1000", .num (pyRoundTo (k / (members / 1000)) 1))] }]
        else []
      | none => []
    else []

/-- Rule 4: post-acute cost share for joint replacements. -/
def mskPostAcuteRow (cid : String) (r : Row) : List Flag :=
  let epType := rowGetD r "episode_type" (.str "")
  if cellEqStr epType "TKR" ∨ cellEqStr epType "THR" then
    match (rowGetD r "post_acute_cost_avg" .na).toQ, (rowGetD r "avg_episode_cost" .na).toQ with
    | some pa, some avg =>
      if avg ≠ 0 ∧ 1/5 < pa / avg then
        [{ severity := "YELLOW", category := "specialty",
           metricName := "post_acute_cost_ratio",
           expectedValue := "<20% of total episode cost", episodeType := epType,
           contractId := cid,
           related := [("post_acute_cost_avg", .num pa),
                       ("avg_episode_cost", .num avg),
                       ("discharge_home_pct", rowGetD r "discharge_home_pct" .na),
                       ("discharge_snf_pct", rowGetD r "discharge_snf_pct" .na)] }]
      else []
    | _, _ => []
  else []

/-- Rule 5: opioid MME at discharge; Conservative rows are skipped. -/
def mskOpioidRow (cid : String) (r : Row) : List Flag :=
  let epType := rowGetD r "episode_type" (.str "")
  if strHas epType.pyStr "Conservative" then []
  else
    match (rowGetD r "avg_opioid_mme_discharge" .na).toQ with
    | some mme =>
      if 50 < mme then
        [{ severity := if 90 < mme then "RED" else "YELLOW", category := "specialty",
           metricName := "opioid_mme_discharge",
           expectedValue := "<50 MME (CDC guideline-informed)", episodeType := epType,
           contractId := cid,
           related := [("avg_opioid_mme_discharge", .num mme)] }]
      else []
    | none => []

/-- Rule 6: PROM collection reliability; Conservative rows are skipped. -/
def mskPromRow (cid : String) (r : Row) : List Flag :=
  let epType := rowGetD r "episode_type" (.str "")
  if strHas epType.pyStr "Conservative" then []
  else
    match (rowGetD r "prom_collection_rate" .na).toQ with
    | some coll =>
      if coll < 1/2 then
        [{ severity := "RED", category := "specialty",
           metricName := "prom_collection_reliability",
           expectedValue := ">50% for reliable outcome measurement",
           episodeType := epType, contractId := cid,
           related := [("prom_collection_rate", .num coll),
                       ("prom_improvement_rate", rowGetD r "prom_improvement_rate" .na)] }]
      else []
    | none => []

/-- Rule 7: share of 3+-level fusions among all fusions. -/
def mskFusionFlags (eps : DataFrame) (cid : String) : List Flag :=
  let fus12 := eps.rows.filter (fun r => cellEqStr (rowGetD r "episode_type" .na) "Spinal Fusion 1-2")
  let fus3p := eps.rows.filter (fun r => cellEqStr (rowGetD r "episode_type" .na) "Spinal Fusion 3+")
  match fus12, fus3p with
  | a :: _, b :: _ =>
    match (rowGetD a "episode_count" (.num 0)).toQ, (rowGetD b "episode_count" (.num 0)).toQ with
    | some c12, some c3p =>
      if 0 < c12 + c3p ∧ 3/10 < c3p / (c12 + c3p) then
        [{ severity := "YELLOW", category := "specialty",
           metricName := "fusion_complexity_distribution",
           expectedValue := "<30% of fusions should be 3+ levels",
           episodeType := .str "Spinal Fusion", contractId := cid,
           related := [("fusion_1_2_count", .num c12),
                       ("fusion_3_plus_count", .num c3p),
                       ("pct_3_plus", .num (pyRoundTo (c3p / (c12 + c3p)) 3))] }]
      else []
    | _, _ => []
  | _, _ => []

/-- validate_msk_rules.  The unconditional episodes_df["episode_type"] lookup
of rules 2 and 7 surfaces as KeyError. -/
def validate_msk_rules (eps _qual : DataFrame) (_rr : RefRanges) (contract : Contract) :
    Except String (List Flag) := do
  let cid := contract.contractId
  let members := contract.attributedMembers.getD 0
  let f1 := eps.rows.flatMap (mskImplantRow cid)
  let _ ← eps.colE "episode_type"
  let f2 := mskArthroscopyFlags eps members cid
  let f4 := eps.rows.flatMap (mskPostAcuteRow cid)
  let f5 := eps.rows.flatMap (mskOpioidRow cid)
  let f6 := eps.rows.flatMap (mskPromRow cid)
  let f7 := mskFusionFlags eps cid
  return f1 ++ f2 ++ f4 ++ f5 ++ f6 ++ f7

/-! ## Cross-metric checks (src/validation/cross_metric.py) -/

/-- MSK check 1: discharge-to-home shift with ER surge, for TKR only, against
the hard-coded prior-year baselines 62 percent home and 8 percent ER. -/
def crossDischargeRow (cid : String) (r : Row) : List Flag :=
  let epType := rowGetD r "episode_type" (.str "")
  if strHas epType.pyStr "Conservative" then []
  else if cellEqStr epType "TKR" then
    match (rowGetD r "discharge_home_pct" .na).toQ, (rowGetD r "er_visit_rate_90d" .na).toQ with
    | some home, some er =>
      if 1/10 < home - 62/100 ∧ 1/2 < (er - 8/100) / (8/100) then
        [{ severity := "RED", category := "cross_metric",
           metricName := "discharge_shift_er_correlation",
           expectedValue := "ER rate should not increase >50% when home discharge increases >10pp",
           episodeType := epType, contractId := cid,
           related := [("discharge_home_pct", .num home),
                       ("prior_year_home_pct", .num (62/100)),
                       ("er_visit_rate_90d", .num er),
                       ("prior_year_er_rate", .num (8/100)),
                       ("readmission_rate", rowGetD r "readmission_rate" .na)] }]
      else []
    | _, _ => []
  else []

/-- MSK check 2: actual vs expected risk score divergence over 10 percent. -/
def crossRiskRow (cid : String) (r : Row) : List Flag :=
  let epType := rowGetD r "episode_type" (.str "")
  match (rowGetD r "risk_score_actual" .na).toQ, (rowGetD r "risk_score_expected" .na).toQ with
  | some actual, some expectedv =>
    if 0 < expectedv ∧ 1/10 < |actual - expectedv| / expectedv then
      [{ severity := "YELLOW", category := "cross_metric",
         metricName := "risk_score_calibration",
         expectedValue := "Within 10% of each other", episodeType := epType,
         contractId := cid,
         related := [("risk_score_actual", .num actual),
                     ("risk_score_expected", .num expectedv)] }]
    else []
  | _, _ => []

/-- MSK check 5: knee arthroscopy volume per 1000 members. -/
def crossVolumeRow (members : ℚ) (cid : String) (r : Row) : List Flag :=
  let epType := rowGetD r "episode_type" (.str "")
  match (rowGetD r "episode_count" (.num 0)).toQ with
  | none => []
  | some k =>
    if k = 0 then []
    else if cellEqStr epType "Knee Arthroscopy" ∧ 25 < k / (members / 1000) then
      [{ severity := "RED", category := "cross_metric",
         metricName := "volume_per_1000",
         expectedValue := "15-25 per 1,000 for MA population",
         episodeType := epType, contractId := cid,
         related := [("episode_count", .num k),
                     ("attributed_members", .num members),
                     ("rate_per_1000", .num (pyRoundTo (k / (members / 1000)) 1))] }]
    else []

/-- MSK: arthroscopy-to-conservative-joint episode ratio above 0.50. -/
def crossRatioFlags (eps : DataFrame) (cid : String) : List Flag :=
  let arth := eps.rows.filter (fun r => cellEqStr (rowGetD r "episode_type" .na) "Knee Arthroscopy")
  let cons := eps.rows.filter (fun r => cellEqStr (rowGetD r "episode_type" .na) "Conservative Joint")
  match arth, cons with
  | a :: _, c :: _ =>
    match (rowGetD a "episode_count" (.num 0)).toQ, (rowGetD c "episode_count" (.num 0)).toQ with
    | some ak, some ck =>
      if 0 < ck ∧ 1/2 < ak / ck then
        [{ severity := "RED", category := "cross_metric",
           metricName := "arthroscopy_to_conservative_ratio",
           expectedValue := "<0.50:1 (target 0.35:1)",
           episodeType := .str "Knee Arthroscopy", contractId := cid,
           related := [("arthroscopy_count", .num ak),
                       ("conservative_joint_count", .num ck),
                       ("ratio", .num (pyRoundTo (ak / ck) 3))] }]
      else []
    | _, _ => []
  | _, _ => []

/-- MSK check 6: conservative LBP volume falling while 1-2-level fusions rise
more than 20 percent year over year. -/
def crossPipelineFlags (eps : DataFrame) (cid : String) : List Flag :=
  let consL := eps.rows.filter (fun r => cellEqStr (rowGetD r "episode_type" .na) "Conservative LBP")
  let fus := eps.rows.filter (fun r => cellEqStr (rowGetD r "episode_type" .na) "Spinal Fusion 1-2")
  match consL, fus with
  | a :: _, b :: _ =>
    match (rowGetD a "episode_count" (.num 0)).toQ,
          (rowGetD a "prior_year_episode_count" (.num 0)).toQ,
          (rowGetD b "episode_count" (.num 0)).toQ,
          (rowGetD b "prior_year_episode_count" (.num 0)).toQ with
    | some cc, some cp, some fc, some fp =>
      if 0 < cp ∧ 0 < fp ∧ (cc - cp) / cp < 0 ∧ 1/5 < (fc - fp) / fp then
        [{ severity := "RED", category := "cross_metric",
           metricName := "surgical_pipeline_acceleration",
           expectedValue := "Volumes should not shift disproportionately toward surgery",
           episodeType := .str "Conservative LBP → Spinal Fusion", contractId := cid,
           related := [("cons_lbp_current", .num cc), ("cons_lbp_prior", .num cp),
                       ("fusion_current", .num fc), ("fusion_prior", .num fp)] }]
      else []
    | _, _, _, _ => []
  | _, _ => []

/-- _check_msk_cross_metrics. -/
def mskCrossFlags (eps : DataFrame) (contract : Contract) : Except String (List Flag) := do
  let cid := contract.contractId
  let members := contract.attributedMembers.getD 0
  let f1 := eps.rows.flatMap (crossDischargeRow cid)
  let f2 := eps.rows.flatMap (crossRiskRow cid)
  let f5 := if 0 < members then eps.rows.flatMap (crossVolumeRow members cid) else []
  let _ ← eps.colE "episode_type"
  return f1 ++ f2 ++ f5 ++ crossRatioFlags eps cid ++ crossPipelineFlags eps cid

/-- Label of an oncology episode row. -/
def oncEpLabel (r : Row) : Cell :=
  .str (strStrip ((rowGetD r "cancer_type" (.str "")).pyStr ++ " " ++
    (rowGetD r "stage_group" (.str "")).pyStr ++ " " ++
    (rowGetD r "line_of_therapy" (.str "")).pyStr))

/-- The pathway back-calculation: implied non-pathway episode cost assuming
pathway episodes cost the target price. -/
def nonPathwayEst (adherence avg target : ℚ) : ℚ :=
  (avg - adherence * target) / (1 - adherence)

/-- Oncology check 3: low pathway adherence correlated with cost overrun. -/
def crossPathwayRow (cid : String) (r : Row) : List Flag :=
  let lab := oncEpLabel r
  match (rowGetD r "pathway_adherence_rate" .na).toQ,
        (rowGetD r "avg_episode_cost" .na).toQ,
        (rowGetD r "target_price" .na).toQ with
  | some ad, some avg, some t =>
    if ad < 3/4 ∧ t < avg then
      if 1/10 < (avg - t) / t then
        if ad < 1 then
          let npc := nonPathwayEst ad avg t
          let cdp := if 0 < t then (npc - t) / t else 0
          if 1/4 < cdp then
            [{ severity := "RED", category := "cross_metric",
               metricName := "pathway_cost_correlation",
               expectedValue := "Pathway adherence >75% when cost exceeds target by >10%",
               episodeType := lab, contractId := cid,
               related := [("avg_episode_cost", .num avg),
                           ("target_price", .num t),
                           ("pathway_adherence", .num ad),
                           ("est_pathway_cost", .num t),
                           ("est_non_pathway_cost", .num (intToQ (pyRound npc)))] }]
          else []
        else []
      else []
    else []
  | _, _, _ => []

/-- Directional targets of the five end-of-life measures
(true = too high is bad). -/
def eolDirections (c : Cell) : Option Bool :=
  match c with
  | .str s =>
    ([("ONC-Q-002", true), ("ONC-Q-003", false), ("ONC-Q-004", false),
      ("ONC-Q-005", true), ("ONC-Q-006", true)] : List (String × Bool)).lookup s
  | _ => none

/-- Whether one quality row is a failing EOL measure. -/
def eolFailRow (r : Row) : Bool :=
  match eolDirections (rowGetD r "measure_id" (.str "")) with
  | none => false
  | some highBad =>
    match (rowGetD r "rate" (.num 0)).toQ, (rowGetD r "target" (.num 0)).toQ with
    | some rt, some tg => if highBad then tg < rt else rt < tg
    | _, _ => false

/-- Savings contribution of one episode row: total_target minus total_cost,
zero when either is missing. -/
def gateSavingsTerm (r : Row) : ℚ :=
  match (rowGetD r "total_cost" (.num 0)).toQ, (rowGetD r "total_target" (.num 0)).toQ with
  | some tc, some tt => tt - tc
  | _, _ => 0

/-- Oncology check 7: quality-gate proximity (near miss in (0,5], plain
failure above 5 points). -/
def crossGateFlags (qual eps : DataFrame) (contract : Contract) : List Flag :=
  let cid := contract.contractId
  let gateMin := contract.qualityGateMinimum.getD 0
  match qual.rows.filter (fun r => cellContains (rowGetD r "measure_id" .na) "COMP") with
  | [] => []
  | r :: _ =>
    match (rowGetD r "points_earned" (.num 0)).toQ, (rowGetD r "max_points" (.num 0)).toQ with
    | some e, some m =>
      if 0 < m then
        let composite := e / m * 100
        let gap := gateMin - composite
        if 0 < gap ∧ gap ≤ 5 then
          let totalSavings := (eps.rows.map gateSavingsTerm).sum
          let atRisk := max 0 totalSavings * contract.sharingRateSavings.getD 0
          [{ severity := "RED", category := "cross_metric",
             metricName := "quality_gate_proximity",
             episodeType := .str "Quality Gate", contractId := cid,
             related := [("composite_earned", .num e), ("composite_max", .num m),
                         ("composite_pct", .num (pyRoundTo composite 1)),
                         ("gate_minimum", .num gateMin),
                         ("estimated_savings_at_risk", .num (intToQ (pyRound atRisk)))] }]
        else if 0 < gap then
          [{ severity := "RED", category := "cross_metric",
             metricName := "quality_gate_failure",
             episodeType := .str "Quality Gate", contractId := cid }]
        else []
      else []
    | _, _ => []

/-- Oncology check 8: expensive drugs administered mostly at HOPD and not
flagged biosimilar. -/
def crossDrugRow (cid : String) (r : Row) : List Flag :=
  let name := rowGetD r "drug_name" (.str "")
  let isBio := rowGetD r "is_biosimilar" (.boolV false)
  match (rowGetD r "avg_cost_per_claim" (.num 0)).toQ,
        (rowGetD r "site_of_service_hopd_pct" (.num 0)).toQ with
  | some avg, some hopd =>
    if 2000 < avg ∧ 6/10 < hopd then
      if !isBio.truthy && strLower isBio.pyStr ≠ "true" then
        [{ severity := "YELLOW", category := "cross_metric",
           metricName := "site_of_service_cost",
           expectedValue := "HOPD <60% for office-administrable drugs",
           episodeType := .str "Drug Detail", contractId := cid,
           related := [("drug_name", name), ("hopd_pct", .num hopd),
                       ("avg_cost_per_claim", .num avg),
                       ("total_claims", rowGetD r "total_claims" (.num 0))] }]
      else []
    else []
  | _, _ => []

/-- _check_onc_cross_metrics. -/
def oncCrossFlags (eps qual : DataFrame) (contract : Contract)
    (drugs : Option DataFrame) : Except String (List Flag) := do
  let cid := contract.contractId
  let f3 := eps.rows.flatMap (crossPathwayRow cid)
  let _ ← qual.colE "measure_id"
  let noComp := qual.rows.filter (fun r => !cellContains (rowGetD r "measure_id" .na) "COMP")
  let eolFails := noComp.countP eolFailRow
  let f4 ←
    if 3 ≤ eolFails then do
      let acpCell ←
        match noComp.filter (fun r => cellEqStr (rowGetD r "measure_id" .na) "ONC-Q-009") with
        | [] => pure Cell.na
        | r :: _ =>
          if "rate" ∈ qual.cols then pure (rowGetD r "rate" .na)
          else Except.error "KeyError: rate"
      pure [{ severity := "RED", category := "cross_metric",
              metricName := "eol_systemic_failure",
              expectedValue := "<3 EOL metric failures",
              episodeType := Cell.str "End-of-Life Care", contractId := cid,
              related := [("eol_failures", Cell.num (natToQ eolFails)),
                          ("acp_rate", acpCell)] : Flag }]
    else pure []
  let f7 := crossGateFlags qual eps contract
  let f8 := match drugs with
    | none => []
    | some ddf => ddf.rows.flatMap (crossDrugRow cid)
  return f3 ++ f4 ++ f7 ++ f8

/-- validate_cross_metrics: specialty dispatch. -/
def validate_cross_metrics (eps qual : DataFrame) (contract : Contract)
    (drugs : Option DataFrame) : Except String (List Flag) :=
  let specialty := contract.specialty.getD ""
  if specialty = "MSK" then mskCrossFlags eps contract
  else if specialty = "Oncology" then oncCrossFlags eps qual contract drugs
  else .ok []

/-! ## Oncology specialty rules (src/validation/onc_rules.py) -/

/-- Calendar date as used by datetime.date. -/
structure PyDate where
  year : ℤ
  month : ℤ
  day : ℤ
deriving DecidableEq, Repr

def dateLe (a b : PyDate) : Bool :=
  if a.year < b.year then true
  else if b.year < a.year then false
  else if a.month < b.month then true
  else if b.month < a.month then false
  else decide (a.day ≤ b.day)

def isLeap (y : ℤ) : Bool := (y % 4 = 0 && y % 100 ≠ 0) || y % 400 = 0

def daysInMonth (y m : ℤ) : ℤ :=
  if m = 2 then (if isLeap y then 29 else 28)
  else if m = 4 ∨ m = 6 ∨ m = 9 ∨ m = 11 then 30
  else 31

/-- datetime.strptime(s, "%Y-%m-%d"), None on failure. -/
def parseDate (s : String) : Option PyDate :=
  match (listSplit '-' s.data).map digitsToNat with
  | [some y, some m, some d] =>
    if 1 ≤ y ∧ y ≤ 9999 ∧ 1 ≤ m ∧ m ≤ 12 ∧ 1 ≤ d ∧ (d : ℤ) ≤ daysInMonth y m then
      some ⟨y, m, d⟩
    else none
  | _ => none

/-- date minus relativedelta(months=k), clamping the day to the month end. -/
def subMonths (d : PyDate) (k : ℤ) : PyDate :=
  let t : ℤ := d.year * 12 + (d.month - 1) - k
  let y := t / 12
  let m := t % 12 + 1
  ⟨y, m, min d.day (daysInMonth y m)⟩

/-- Python round() of a possibly-NaN value; round(NaN) raises ValueError. -/
def roundE : Option ℚ → Except String ℤ
  | some q => .ok (pyRound q)
  | none => .error "ValueError: cannot convert float NaN to integer"

def BIOSIMILAR_PAIRS : List (String × String) :=
  [("Trastuzumab (Herceptin)", "Trastuzumab-dkst"),
   ("Bevacizumab (Avastin)", "Bevacizumab-awwb"),
   ("Pegfilgrastim (Neulasta)", "Pegfilgrastim-jmdb")]

def CANCER_TYPE_MAP (c : Cell) : Option String :=
  match c with
  | .str s =>
    ([("Breast", "breast"), ("Lung", "lung"), ("Colorectal", "colorectal"),
      ("Prostate", "prostate")] : List (String × String)).lookup s
  | _ => none

/-- Rule 1: pathway adherence below the contract target with cost overrun;
int() of a NaN episode count raises ValueError. -/
def oncPathwayRuleRow (pathwayTarget : ℚ) (cid : String) (r : Row) :
    Except String (List Flag) :=
  let lab := oncEpLabel r
  match (rowGetD r "pathway_adherence_rate" .na).toQ,
        (rowGetD r "avg_episode_cost" .na).toQ,
        (rowGetD r "target_price" .na).toQ with
  | some ad, some avg, some t =>
    if pathwayTarget ≤ ad ∨ avg ≤ t then pure []
    else if (avg - t) / t ≤ 1/20 then pure []
    else if ad < 1 then
      let npc := nonPathwayEst ad avg t
      let cdp := if 0 < t then (npc - t) / t else 0
      if 1/4 < cdp then
        match (rowGetD r "episode_count" (.num 0)).toQ with
        | some k =>
          let npCount := pyTrunc (k * (1 - ad))
          let savings := intToQ npCount * (npc - t)
          pure [{ severity := "RED", category := "specialty",
                  metricName := "pathway_cost_correlation",
                  episodeType := lab, contractId := cid,
                  related := [("pathway_adherence", .num ad),
                              ("avg_episode_cost", .num avg),
                              ("target_price", .num t),
                              ("est_pathway_cost", .num t),
                              ("est_non_pathway_cost", .num (intToQ (pyRound npc))),
                              ("potential_savings", .num (intToQ (pyRound savings)))] }]
        | none => .error "ValueError: cannot convert float NaN to integer"
      else pure []
    else pure []
  | _, _, _ => pure []

/-- Rule 2, one brand/biosimilar pair. -/
def biosimilarPairE (drugs : DataFrame) (totalEpisodes : ℚ) (cid : String)
    (brandFull bioKey : String) : Except String (List Flag) :=
  let brandSearch := strStrip ⟨(listSplit '(' brandFull.data).headD []⟩
  let brandRows := drugs.rows.filter (fun r =>
    cellContains (rowGetD r "drug_name" .na) brandSearch &&
    !(strLower (rowGetD r "is_biosimilar" .na).pyStr == "true"))
  let bioRows := drugs.rows.filter (fun r => cellContains (rowGetD r "drug_name" .na) bioKey)
  match brandRows, bioRows with
  | b :: _, s :: _ =>
    let brandClaims := (rowGetD b "total_claims" (.num 0)).toQ
    let bioClaims := (rowGetD s "total_claims" (.num 0)).toQ
    let total := oAdd brandClaims bioClaims
    if oEqQ total 0 then pure []
    else
      let brandPct := oDiv brandClaims total
      if oLeQ brandPct (1/2) then pure []
      else do
        let brandCost := (rowGetD b "avg_cost_per_claim" (.num 0)).toQ
        let bioCost := (rowGetD s "avg_cost_per_claim" (.num 0)).toQ
        let potential := oMul brandClaims (oSub brandCost bioCost)
        let perEp := if 0 < totalEpisodes then oDiv potential (some totalEpisodes) else some 0
        let pRound ← roundE potential
        let peRound ← roundE perEp
        pure [{ severity := if oGtQ brandPct (8/10) then "RED" else "YELLOW",
                category := "specialty",
                metricName := "biosimilar_savings_opportunity",
                expectedValue := "brand utilization <50%",
                episodeType := .str "Drug Detail", contractId := cid,
                related := [("brand_drug", rowGetD b "drug_name" .na),
                            ("biosimilar_drug", rowGetD s "drug_name" .na),
                            ("brand_claims", ofO brandClaims),
                            ("biosimilar_claims", ofO bioClaims),
                            ("brand_cost_per_claim", ofO brandCost),
                            ("biosimilar_cost_per_claim", ofO bioCost),
                            ("potential_savings", .num (intToQ pRound)),
                            ("per_episode_impact", .num (intToQ peRound))] }]
  | _, _ => pure []

/-- Rule 2: biosimilar savings opportunities over the fixed pair list. -/
def biosimilarFlags (drugs eps : DataFrame) (cid : String) : Except String (List Flag) := do
  let _ ← eps.colE "episode_count"
  let totalEpisodes := colSum (eps.col "episode_count")
  let _ ← drugs.colE "drug_name"
  let _ ← drugs.colE "is_biosimilar"
  let fss ← BIOSIMILAR_PAIRS.mapM (fun p => biosimilarPairE drugs totalEpisodes cid p.1 p.2)
  return fss.flatten

/-- Rule 3: site-of-service savings with 50 percent markup and a 5000 dollar
materiality floor. -/
def siteOfServiceRow (cid : String) (r : Row) : Except String (List Flag) :=
  match (rowGetD r "avg_cost_per_claim" (.num 0)).toQ with
  | none => pure []
  | some avg =>
    if avg ≤ 2000 then pure []
    else
      match (rowGetD r "site_of_service_hopd_pct" (.num 0)).toQ with
      | none => pure []
      | some hopd =>
        if hopd ≤ 6/10 then pure []
        else do
          let tcO := (rowGetD r "total_claims" (.num 0)).toQ
          let excessClaims := oMul tcO (some (hopd - 4/10))
          let est := oMul (oMul excessClaims (some avg)) (some (1/2))
          if oLtQ est 5000 then pure []
          else do
            let exR ← roundE excessClaims
            let estR ← roundE est
            pure [{ severity := "YELLOW", category := "specialty",
                    metricName := "site_of_service_opportunity",
                    expectedValue := "HOPD <60% for office-administrable drugs",
                    episodeType := .str "Drug Detail", contractId := cid,
                    related := [("drug_name", rowGetD r "drug_name" (.str "")),
                                ("hopd_pct", .num hopd),
                                ("avg_cost_per_claim", .num avg),
                                ("total_claims", ofO tcO),
                                ("excess_hopd_claims", .num (intToQ exR)),
                                ("estimated_savings", .num (intToQ estR))] }]

/-- Rule 4: ACP below 50 percent with at least three EOL failures. -/
def eolAcpFlags (qual : DataFrame) (cid : String) : Except String (List Flag) := do
  let _ ← qual.colE "measure_id"
  match qual.rows.filter (fun r => cellEqStr (rowGetD r "measure_id" .na) "ONC-Q-009") with
  | [] => return []
  | r :: _ =>
    match (rowGetD r "rate" (.num 1)).toQ with
    | none => return []
    | some acp =>
      if 1/2 ≤ acp then return []
      else
        let fails := qual.rows.countP eolFailRow
        if 3 ≤ fails then
          return [{ severity := "RED", category := "specialty",
                    metricName := "acp_root_cause",
                    expectedValue := "ACP >50% to support EOL quality metrics",
                    episodeType := .str "End-of-Life Care", contractId := cid,
                    related := [("acp_rate", .num acp),
                                ("eol_failures", .num (natToQ fails))] }]
        else return []

/-- Rule 5 helper: novel-therapy drugs inside the lookback window, with their
total costs. -/
def novelDrugsOf (drugs : DataFrame) (cutoff : PyDate) : List (Cell × Option ℚ) :=
  drugs.rows.filterMap fun r =>
    if strLower (rowGetD r "is_novel_therapy" (.boolV false)).pyStr ≠ "true" then none
    else
      match parseDate (rowGetD r "fda_approval_date" (.str "")).pyStr with
      | none => none
      | some fda =>
        if dateLe cutoff fda then
          some (rowGetD r "drug_name" (.str ""), (rowGetD r "total_cost" (.num 0)).toQ)
        else none

/-- Total cost of the carve-out-eligible drugs (NaN-poisoning sum). -/
def novelTotalCost (l : List (Cell × Option ℚ)) : Option ℚ :=
  l.foldl (fun acc x => oAdd acc x.2) (some 0)

/-- Rule 5: novel-therapy carve-out impact. -/
def ruleNovelTherapy (drugs eps : DataFrame) (ct : Contract) : Except String (List Flag) := do
  if !(ct.novelTherapyCarveout.getD false) then return []
  let lookback := ct.novelTherapyLookbackMonths.getD 18
  let some asOf := parseDate (ct.dataAsOf.getD "2025-01-15") | return []
  let cutoff := subMonths asOf lookback
  let novel := novelDrugsOf drugs cutoff
  if novel.isEmpty then return []
  let tcCol ← eps.colE "total_cost"
  let ttCol ← eps.colE "total_target"
  let totalCost := colSum tcCol
  let totalTarget := colSum ttCol
  let before := totalTarget - totalCost
  let after := oSub (some totalTarget) (oSub (some totalCost) (novelTotalCost novel))
  let rate := ct.sharingRateSavings.getD 0
  let impact := oMul (oSub after (some before)) (some rate)
  let afterR ← roundE after
  let impactR ← roundE impact
  return [{ severity := "YELLOW", category := "specialty",
            metricName := "novel_therapy_carveout",
            expectedValue := "These costs may be carved out per contract terms",
            episodeType := .str "Drug Detail", contractId := ct.contractId,
            related := [("novel_total_cost", ofO (novelTotalCost novel)),
                        ("savings_before_carveout", .num (intToQ (pyRound before))),
                        ("savings_after_carveout", .num (intToQ afterR)),
                        ("provider_share_impact", .num (intToQ impactR))] }]

/-- Accumulate an episode count under its cancer type, preserving first-seen
order as a Python dict does. -/
def assocAdd (l : List (Cell × ℚ)) (k : Cell) (v : ℚ) : List (Cell × ℚ) :=
  match l with
  | [] => [(k, v)]
  | (k', v') :: t => if k' = k then (k', v' + v) :: t else (k', v') :: assocAdd t k v

def cancerVolumes (eps : DataFrame) : List (Cell × ℚ) :=
  eps.rows.foldl (fun acc r =>
    match (rowGetD r "episode_count" (.num 0)).toQ with
    | none => acc
    | some k => assocAdd acc (rowGetD r "cancer_type" (.str "")) k) []

/-- Rule 6: episode volume per 1000 members vs configured incidence. -/
def ruleVolumeIncidence (eps : DataFrame) (rr : RefRanges) (ct : Contract) : List Flag :=
  let cid := ct.contractId
  let members := ct.attributedMembers.getD 0
  if members = 0 then []
  else
    (cancerVolumes eps).flatMap fun p =>
      match CANCER_TYPE_MAP p.1 with
      | none => []
      | some key =>
        match rr.incidenceRatesMaPer1000.lookup key with
        | none => []
        | some ref =>
          let rate := p.2 / (members / 1000)
          let expectedv := ref.expected.getD 0
          let minR := ref.minQ.getD 0
          let maxR := ref.maxQ.getD 0
          if 0 < expectedv ∧ 2 * maxR < rate then
            [{ severity := "RED", category := "specialty",
               metricName := "episode_volume_vs_incidence",
               episodeType := .str (p.1.pyStr ++ " Volume"), contractId := cid,
               related := [("cancer_type", p.1), ("episode_count", .num p.2),
                           ("rate_per_1000", .num (pyRoundTo rate 1)),
                           ("expected_rate", .num expectedv)] }]
          else if 0 < expectedv ∧ rate < minR / 2 then
            [{ severity := "YELLOW", category := "specialty",
               metricName := "episode_volume_vs_incidence",
               episodeType := .str (p.1.pyStr ++ " Volume"), contractId := cid,
               related := [("cancer_type", p.1), ("episode_count", .num p.2),
                           ("rate_per_1000", .num (pyRoundTo rate 1)),
                           ("expected_rate", .num expectedv)] }]
          else []

/-- One improvement candidate of rule 7. -/
def candOf (r : Row) : Option Candidate :=
  match (rowGetD r "points_earned" (.num 0)).toQ, (rowGetD r "max_points" (.num 0)).toQ with
  | some cur, some mv =>
    if 0 < mv - cur then
      some ⟨rowGetD r "measure_name" (.str ""), cur, mv, mv - cur,
            rowGetD r "rate" .na, rowGetD r "target" .na⟩
    else none
  | _, _ => none

/-- Rule 7: quality-gate near miss (gap in (0,5]) with the three cheapest
measures to improve, stably sorted by ascending point gap. -/
def ruleQualityGate (qual eps : DataFrame) (ct : Contract) : Except String (List Flag) := do
  let cid := ct.contractId
  let gateMin := ct.qualityGateMinimum.getD 0
  let _ ← qual.colE "measure_id"
  let compRows := qual.rows.filter (fun r => cellContains (rowGetD r "measure_id" .na) "COMP")
  let some r0 := compRows.head? | return []
  match (rowGetD r0 "points_earned" (.num 0)).toQ, (rowGetD r0 "max_points" (.num 0)).toQ with
  | some e, some m => do
    if m = 0 then return []
    let composite := e / m * 100
    let gap := gateMin - composite
    if gap ≤ 0 ∨ 5 < gap then return []
    let totalSavings := (eps.rows.map gateSavingsTerm).sum
    let atRisk := max 0 totalSavings * ct.sharingRateSavings.getD 0
    let noComp := qual.rows.filter (fun r => !cellContains (rowGetD r "measure_id" .na) "COMP")
    let cands := noComp.filterMap candOf
    let top := (List.insertionSort (fun a b => a.gap ≤ b.gap) cands).take 3
    return [{ severity := "RED", category := "specialty",
              metricName := "quality_gate_improvement_path",
              episodeType := .str "Quality Gate", contractId := cid,
              related := [("composite_pct", .num (pyRoundTo composite 1)),
                          ("gate_minimum", .num gateMin),
                          ("gap_points", .num (pyRoundTo gap 1)),
                          ("savings_at_risk", .num (intToQ (pyRound atRisk)))],
              candidates := top }]
  | _, _ => return []

/-- validate_onc_rules. -/
def validate_onc_rules (eps qual drugs : DataFrame) (rr : RefRanges) (ct : Contract) :
    Except String (List Flag) := do
  let cid := ct.contractId
  let pt := ct.pathwayAdherenceTarget.getD (8/10)
  let f1s ← eps.rows.mapM (oncPathwayRuleRow pt cid)
  let f2 ← biosimilarFlags drugs eps cid
  let f3s ← drugs.rows.mapM (siteOfServiceRow cid)
  let f4 ← eolAcpFlags qual cid
  let f5 ← ruleNovelTherapy drugs eps ct
  let f6 := ruleVolumeIncidence eps rr ct
  let f7 ← ruleQualityGate qual eps ct
  return f1s.flatten ++ f2 ++ f3s.flatten ++ f4 ++ f5 ++ f6 ++ f7

/-! ## Pipeline (src/main.py) with the per-category id counters made
explicit: the source increments one module-global counter per created flag,
in creation order, so numbering a call's output from the counter's current
value is the same operation. -/

/-- Number a call's flags from counter value c (ids c+1, c+2, ...). -/
def assignIds (tag : String) (c : ℕ) : List Flag → List Flag
  | [] => []
  | f :: fs => { f with idTag := tag, idNum := c + 1 } :: assignIds tag (c + 1) fs

/-- The six module-global flag-id counters. -/
structure Counters where
  schemaC : ℕ := 0
  arithC : ℕ := 0
  rangeC : ℕ := 0
  crossC : ℕ := 0
  mskC : ℕ := 0
  oncC : ℕ := 0
deriving DecidableEq, Repr

/-- The five loaded datasets, the two contracts and the reference ranges. -/
structure PipelineInput where
  mskEpisodes : DataFrame
  mskQuality : DataFrame
  oncEpisodes : DataFrame
  oncQuality : DataFrame
  oncDrugs : DataFrame
  mskContract : Contract
  oncContract : Contract
  mskRanges : RefRanges := {}
  oncRanges : RefRanges := {}
deriving DecidableEq, Repr

/-- The validation pipeline of main(), in call order. -/
def runPipeline (cnt : Counters) (inp : PipelineInput) :
    Except String (List Flag × Counters) := do
  let s1 := validate_schema inp.mskEpisodes "msk_episodes" inp.mskContract
  let s2 := validate_schema inp.mskQuality "msk_quality" inp.mskContract
  let a1 ← validate_arithmetic inp.mskEpisodes inp.mskQuality inp.mskContract
  let r1 := validate_ranges inp.mskEpisodes inp.mskRanges inp.mskContract
  let x1 ← validate_cross_metrics inp.mskEpisodes inp.mskQuality inp.mskContract none
  let m1 ← validate_msk_rules inp.mskEpisodes inp.mskQuality inp.mskRanges inp.mskContract
  let s3 := validate_schema inp.oncEpisodes "onc_episodes" inp.oncContract
  let s4 := validate_schema inp.oncQuality "onc_quality" inp.oncContract
  let a2 ← validate_arithmetic inp.oncEpisodes inp.oncQuality inp.oncContract
  let r2 := validate_ranges inp.oncEpisodes inp.oncRanges inp.oncContract
  let x2 ← validate_cross_metrics inp.oncEpisodes inp.oncQuality inp.oncContract
    (some inp.oncDrugs)
  let o1 ← validate_onc_rules inp.oncEpisodes inp.oncQuality inp.oncDrugs
    inp.oncRanges inp.oncContract
  let cS1 := cnt.schemaC + s1.length
  let cS2 := cS1 + s2.length
  let cS3 := cS2 + s3.length
  let cS4 := cS3 + s4.length
  let cA1 := cnt.arithC + a1.length
  let cR1 := cnt.rangeC + r1.length
  let cX1 := cnt.crossC + x1.length
  let flags :=
    assignIds "SCHEMA" cnt.schemaC s1 ++ assignIds "SCHEMA" cS1 s2 ++
    assignIds "ARITH" cnt.arithC a1 ++ assignIds "RANGE" cnt.rangeC r1 ++
    assignIds "CROSS" cnt.crossC x1 ++ assignIds "MSK" cnt.mskC m1 ++
    assignIds "SCHEMA" cS2 s3 ++ assignIds "SCHEMA" cS3 s4 ++
    assignIds "ARITH" cA1 a2 ++ assignIds "RANGE" cR1 r2 ++
    assignIds "CROSS" cX1 x2 ++ assignIds "ONC" cnt.oncC o1
  return (flags,
    { schemaC := cS4, arithC := cA1 + a2.length, rangeC := cR1 + r2.length,
      crossC := cX1 + x2.length, mskC := cnt.mskC + m1.length,
      oncC := cnt.oncC + o1.length })

/-! ## Claim C1 -/

/-- Quality frame with a measure_id column and no rows. -/
def qualMid : DataFrame := ⟨["measure_id"], []⟩

/-- A contract dict carrying only its contract_id. -/
def baseContract : Contract := { contractId := "C-TEST" }

/-- Episode frame with one row holding episode_count k, avg_episode_cost a
and total_cost t. -/
def c1Frame (k a t : ℚ) : DataFrame :=
  ⟨["episode_type", "episode_count", "avg_episode_cost", "total_cost"],
   [[("episode_type", .str "TKR"), ("episode_count", .num k),
     ("avg_episode_cost", .num a), ("total_cost", .num t)]]⟩

/-- Number of RED episode_cost_reconciliation flags in a result. -/
def countRecon (fs : List Flag) : ℕ :=
  (fs.filter (fun f =>
    f.metricName == "episode_cost_reconciliation" && f.severity == "RED")).length

/-- C1 (amended): for a row with non-missing episode_count k ≠ 0, non-missing
avg_episode_cost and nonzero total_cost t, the Arithmetic Reconciler emits a
RED episode_cost_reconciliation flag exactly when |k·avg − t| / t > 1/100 with
the signed t as divisor — equivalently, when |k·avg − t| exceeds 1 percent of
t for positive t, while a negative t never produces the flag.  For k = 100,
avg = 1000: t = 100000 and t = 100500 give no flag, t = 102000 exactly one
RED flag. -/
theorem C1_episode_cost_reconciliation (k a t : ℚ) (hk : k ≠ 0) (ht : t ≠ 0) :
    (validate_arithmetic (c1Frame k a t) qualMid baseContract).map countRecon
      = .ok (if 1/100 < |k * a - t| / t then 1 else 0)
    ∧ (validate_arithmetic (c1Frame 100 1000 100000) qualMid baseContract).map countRecon
      = .ok 0
    ∧ (validate_arithmetic (c1Frame 100 1000 100500) qualMid baseContract).map countRecon
      = .ok 0
    ∧ (validate_arithmetic (c1Frame 100 1000 102000) qualMid baseContract).map countRecon
      = .ok 1 := by
  refine ⟨?_, ?_, ?_, ?_⟩
  · simp [validate_arithmetic, arithQualityFlags, arithRow, arithCheck1, arithCheck2,
      arithCheck3, arithCheck4, arithMemberFlags, c1Frame, qualMid, baseContract, rowGetD,
      List.lookup, epLabel, Cell.toQ, DataFrame.colE, DataFrame.col, countRecon, hk, ht,
      Except.map]
    split_ifs with h1 <;> simp [countRecon]
  · with_unfolding_all decide
  · with_unfolding_all decide
  · with_unfolding_all decide

/-- Witness for C1: the theorem applied at k = 100, a = 1000, t = 102000. -/
theorem C1_episode_cost_reconciliation_witness :
    (100 : ℚ) ≠ 0 ∧ (102000 : ℚ) ≠ 0 ∧
    (validate_arithmetic (c1Frame 100 1000 102000) qualMid baseContract).map countRecon
      = .ok (if 1/100 < |(100 : ℚ) * 1000 - 102000| / 102000 then 1 else 0) :=
  ⟨by norm_num, by norm_num,
    (C1_episode_cost_reconciliation 100 1000 102000 (by norm_num) (by norm_num)).1⟩

/-- C1 counterexample: at episode_count 100, avg_episode_cost 1000 and
total_cost −100000 the discrepancy |100·1000 − (−100000)| = 200000 exceeds
1 percent of the total cost in absolute value (and a fortiori the signed
−1000), yet validate_arithmetic emits no episode_cost_reconciliation flag,
because the source divides the absolute difference by the signed total_cost. -/
theorem C1_counterexample :
    (validate_arithmetic (c1Frame 100 1000 (-100000)) qualMid baseContract).map countRecon
      = .ok 0
    ∧ 1/100 * |(-100000 : ℚ)| < |(100 : ℚ) * 1000 - (-100000)| := by
  constructor
  · with_unfolding_all decide
  · norm_num

/-! ## Claim C2 -/

/-- Flags whose metric name differs from col are filtered away. -/
theorem filter_name_eq_nil {l : List Flag} {col : String}
    (h : ∀ f ∈ l, f.metricName ≠ col) :
    l.filter (fun f => f.metricName == col) = [] := by
  rw [List.filter_eq_nil_iff]
  intro f hf
  simp [h f hf]

/-- Filtering a per-column check's output down to one column picks exactly
that column's optional flag, provided the column list has no duplicates. -/
theorem filterMap_filter_name (g : String → Option Flag)
    (hg : ∀ c f, g c = some f → f.metricName = c) :
    ∀ (l : List String), l.Nodup → ∀ col ∈ l,
      (l.filterMap g).filter (fun f => f.metricName == col) = (g col).toList := by
  intro l
  induction l with
  | nil => intro _ col hcol; cases hcol
  | cons c cs ih =>
    intro hnd col hcol
    have hnd' := hnd.of_cons
    have hcnotin : c ∉ cs := (List.nodup_cons.mp hnd).1
    rcases List.mem_cons.mp hcol with hceq | hmem
    · subst hceq
      have hrest : (cs.filterMap g).filter (fun f => f.metricName == col) = [] := by
        apply filter_name_eq_nil
        intro f hf
        obtain ⟨c', hc', hgc'⟩ := List.mem_filterMap.mp hf
        rw [hg c' f hgc']
        intro hcc; rw [hcc] at hc'; exact hcnotin hc'
      cases hgc : g col with
      | none => simp [List.filterMap_cons, hgc, hrest]
      | some f =>
        simp [List.filterMap_cons, hgc, List.filter_cons, hg col f hgc, hrest]
    · have hne : c ≠ col := fun hc => hcnotin (hc ▸ hmem)
      cases hgc : g c with
      | none => simp [List.filterMap_cons, hgc, ih hnd' col hmem]
      | some f =>
        have : f.metricName = c := hg c f hgc
        simp [List.filterMap_cons, hgc, List.filter_cons, this, hne, ih hnd' col hmem]

theorem rateColFlag_name {df : DataFrame} {cid c : String} {f : Flag}
    (h : rateColFlag df cid c = some f) : f.metricName = c := by
  simp only [rateColFlag] at h
  split_ifs at h <;> cases h <;> rfl

theorem negCostColFlag_name {df : DataFrame} {cid c : String} {f : Flag}
    (h : negCostColFlag df cid c = some f) : f.metricName = c := by
  simp only [negCostColFlag] at h
  split_ifs at h <;> cases h <;> rfl

theorem dtypeColFlag_name {df : DataFrame} {cid c : String} {f : Flag}
    (h : dtypeColFlag df cid c = some f) : f.metricName = c := by
  simp only [dtypeColFlag] at h
  split_ifs at h <;> cases h <;> rfl

theorem criticalColFlag_name {df : DataFrame} {cid c : String} {f : Flag}
    (h : criticalColFlag df cid c = some f) : f.metricName = c := by
  simp only [criticalColFlag] at h
  split_ifs at h <;> cases h <;> rfl

/-- Rate columns are configured only for the two episode datasets. -/
theorem rate_ds_cases {ds col : String} (h : col ∈ RATE_COLUMNS ds) :
    ds = "msk_episodes" ∨ ds = "onc_episodes" := by
  unfold RATE_COLUMNS at h
  split_ifs at h with h1 h2
  · exact Or.inl h1
  · exact Or.inr h2
  · cases h

/-- Single-rate-column frame used for the concrete C2 instances. -/
def c2RateFrame (vals : List ℚ) : DataFrame :=
  ⟨["prom_collection_rate"], vals.map (fun v => [("prom_collection_rate", Cell.num v)])⟩

/-- C2 (amended): when a designated rate column holds non-missing values
outside [0,1], the Schema Checker emits for that column exactly one flag:
YELLOW "0-1 proportion scale" when the column's maximum is greater than 1 and
at most 100, otherwise RED "Between 0 and 1".  In particular the values
[0.1, 0.92, 45] DO trigger the percentage-scale heuristic (their maximum 45
is at most 100), giving the YELLOW scale flag, and [10, 45, 92] give the
YELLOW scale flag and no RED flag. -/
theorem C2_rate_scale_heuristic (df : DataFrame) (ds cid col : String)
    (hcol : col ∈ RATE_COLUMNS ds) (hin : col ∈ df.cols)
    (hnostr : ∀ c ∈ df.col col, c.isStr = false)
    (hviol : ((df.col col).filter Cell.notna).filter
        (fun c => cellLtQ c 0 || cellGtQ c 1) ≠ []) :
    (((validate_schema df ds { contractId := cid }).filter (fun f => f.metricName == col))
      = (if 1 < qMax (((df.col col).filter Cell.notna).filterMap Cell.toQ)
            ∧ qMax (((df.col col).filter Cell.notna).filterMap Cell.toQ) ≤ 100 then
          [{ severity := "YELLOW", category := "schema", metricName := col,
             expectedValue := "0-1 proportion scale", contractId := cid }]
        else
          [{ severity := "RED", category := "schema", metricName := col,
             expectedValue := "Between 0 and 1", contractId := cid }]))
    ∧ ((validate_schema (c2RateFrame [1/10, 92/100, 45]) "msk_episodes" baseContract).filter
        (fun f => f.metricName == "prom_collection_rate")).map (fun f => f.severity)
      = ["YELLOW"]
    ∧ ((validate_schema (c2RateFrame [10, 45, 92]) "msk_episodes" baseContract).filter
        (fun f => f.metricName == "prom_collection_rate")).map (fun f => f.severity)
      = ["YELLOW"] := by
  refine ⟨?_, by with_unfolding_all decide, by with_unfolding_all decide⟩
  have hds := rate_ds_cases hcol
  have hcontains : df.cols.contains col = true := by simpa using hin
  have hexp : ∀ c ∈ RATE_COLUMNS ds, c ∈ EXPECTED_COLUMNS ds := by
    rcases hds with rfl | rfl <;> decide
  have hcrit : ∀ c ∈ RATE_COLUMNS ds, c ∉ CRITICAL_FIELDS ds := by
    rcases hds with rfl | rfl <;> decide
  have hepc : ∀ c ∈ RATE_COLUMNS ds, c ≠ "episode_count" := by
    rcases hds with rfl | rfl <;> decide
  have hcost : ∀ c ∈ RATE_COLUMNS ds, strHas (strLower c) "cost" = false := by
    rcases hds with rfl | rfl <;> decide
  have hdisp : ∀ c ∈ RATE_COLUMNS ds, c ≠ "discharge_disposition_sum" := by
    rcases hds with rfl | rfl <;> decide
  have hnodup : (RATE_COLUMNS ds).Nodup := by
    rcases hds with rfl | rfl <;> decide
  have hne : ((df.col col).filter Cell.notna).isEmpty = false := by
    rcases h' : ((df.col col).filter Cell.notna) with _ | ⟨x, xs⟩
    · exact absurd (by rw [h']; rfl) hviol
    · rfl
  have hoor : (((df.col col).filter Cell.notna).filter
      (fun c => cellLtQ c 0 || cellGtQ c 1)).isEmpty = false := by
    rcases h' : (((df.col col).filter Cell.notna).filter (fun c => cellLtQ c 0 || cellGtQ c 1)) with _ | _
    · exact absurd h' hviol
    · rfl
  have hrateCol : rateColFlag df cid col =
      (if 1 < qMax (((df.col col).filter Cell.notna).filterMap Cell.toQ)
          ∧ qMax (((df.col col).filter Cell.notna).filterMap Cell.toQ) ≤ 100 then
        some { severity := "YELLOW", category := "schema", metricName := col,
               expectedValue := "0-1 proportion scale", contractId := cid }
      else
        some { severity := "RED", category := "schema", metricName := col,
               expectedValue := "Between 0 and 1", contractId := cid }) := by
    simp only [rateColFlag, hne, hoor, Bool.false_eq_true, if_false]
  -- the rate flag for col is in the check list, so validate_schema does not
  -- take the green-pass branch
  have hmemrate : ∀ f, rateColFlag df cid col = some f → f ∈ schemaCheckFlags df ds cid := by
    intro f hf
    have : f ∈ schemaRateFlags df ds cid := by
      apply List.mem_filterMap.mpr
      exact ⟨col, List.mem_filter.mpr ⟨hcol, hcontains⟩, hf⟩
    unfold schemaCheckFlags
    simp [this]
  have hchecksne : (schemaCheckFlags df ds cid).isEmpty = false := by
    have h1 : ∃ f, rateColFlag df cid col = some f := by
      rw [hrateCol]; split_ifs <;> exact ⟨_, rfl⟩
    obtain ⟨f, hf⟩ := h1
    have := hmemrate f hf
    rcases h' : schemaCheckFlags df ds cid with _ | _
    · rw [h'] at this; cases this
    · rfl
  have hvs : validate_schema df ds { contractId := cid } = schemaCheckFlags df ds cid := by
    unfold validate_schema
    simp [hchecksne]
  rw [hvs]
  unfold schemaCheckFlags
  rw [List.filter_append, List.filter_append, List.filter_append, List.filter_append,
      List.filter_append, List.filter_append, List.filter_append]
  have hMissing : (schemaMissingFlags df ds cid).filter (fun f => f.metricName == col) = [] := by
    apply filter_name_eq_nil
    intro f hf
    simp only [schemaMissingFlags, List.mem_map, List.mem_filter] at hf
    obtain ⟨c', ⟨_, hc'⟩, rfl⟩ := hf
    intro hcc
    have hcc' : c' = col := hcc
    subst hcc'
    rw [hcontains] at hc'
    simp at hc'
  have hExtra : (schemaExtraFlags df ds cid).filter (fun f => f.metricName == col) = [] := by
    apply filter_name_eq_nil
    intro f hf
    simp only [schemaExtraFlags, List.mem_map, List.mem_filter] at hf
    obtain ⟨c', ⟨_, hc'⟩, rfl⟩ := hf
    intro hcc
    have hcc' : col = c' := Eq.symm hcc
    subst hcc'
    have := hexp col hcol
    simp [this] at hc'
  have hDtype : (schemaDtypeFlags df ds cid).filter (fun f => f.metricName == col) = [] := by
    rw [List.filter_eq_nil_iff]
    intro f hf hb
    have hname : f.metricName = col := by simpa using hb
    simp only [schemaDtypeFlags, List.mem_filterMap] at hf
    obtain ⟨c', _, hgc'⟩ := hf
    have : f.metricName = c' := dtypeColFlag_name hgc'
    rw [hname] at this
    subst this
    simp only [dtypeColFlag] at hgc'
    split_ifs at hgc' with h1 h2
    rcases List.any_eq_true.mp h2 with ⟨x, hx, hxs⟩
    rw [hnostr x (List.mem_filter.mp hx).1] at hxs
    cases hxs
  have hCrit : (schemaCriticalFlags df ds cid).filter (fun f => f.metricName == col) = [] := by
    apply filter_name_eq_nil
    intro f hf
    simp only [schemaCriticalFlags, List.mem_filterMap] at hf
    obtain ⟨c', hc', hgc'⟩ := hf
    rw [criticalColFlag_name hgc']
    intro hcc
    have hcc' : col = c' := Eq.symm hcc
    subst hcc'
    exact hcrit col hcol (List.mem_filter.mp hc').1
  have hEp : (schemaEpCountFlags df cid).filter (fun f => f.metricName == col) = [] := by
    apply filter_name_eq_nil
    intro f hf
    simp only [schemaEpCountFlags] at hf
    split_ifs at hf <;> simp at hf
    rw [hf]
    intro hcc
    exact hepc col hcol (Eq.symm hcc)
  have hNeg : (schemaNegCostFlags df ds cid).filter (fun f => f.metricName == col) = [] := by
    apply filter_name_eq_nil
    intro f hf
    simp only [schemaNegCostFlags, List.mem_filterMap] at hf
    obtain ⟨c', hc', hgc'⟩ := hf
    rw [negCostColFlag_name hgc']
    intro hcc
    have hcc' : col = c' := Eq.symm hcc
    subst hcc'
    simp only [schemaCostCols, List.mem_filter] at hc'
    rcases hc' with ⟨_, hc'⟩
    rw [Bool.and_eq_true] at hc'
    rw [hcost col hcol] at hc'
    simp at hc'
  have hDisp : (schemaDispFlags df ds cid).filter (fun f => f.metricName == col) = [] := by
    apply filter_name_eq_nil
    intro f hf
    simp only [schemaDispFlags] at hf
    split_ifs at hf
    · simp only [List.mem_filterMap] at hf
      obtain ⟨r, _, hr⟩ := hf
      split_ifs at hr
      all_goals first
        | (cases hr
           intro hcc
           exact hdisp col hcol (Eq.symm hcc))
        | cases hr
    · cases hf
  have hRate : (schemaRateFlags df ds cid).filter (fun f => f.metricName == col)
      = (rateColFlag df cid col).toList := by
    unfold schemaRateFlags
    exact filterMap_filter_name (rateColFlag df cid) (fun c f h => rateColFlag_name h)
      _ (hnodup.filter _) col (List.mem_filter.mpr ⟨hcol, hcontains⟩)
  rw [hMissing, hExtra, hDtype, hCrit, hEp, hNeg, hDisp, hRate, hrateCol]
  split_ifs <;> rfl

/-- Witness for C2: the theorem applied to the single-column frame holding
[10, 45, 92]. -/
theorem C2_rate_scale_heuristic_witness :
    ("prom_collection_rate" ∈ RATE_COLUMNS "msk_episodes")
    ∧ ("prom_collection_rate" ∈ (c2RateFrame [10, 45, 92]).cols)
    ∧ (∀ c ∈ (c2RateFrame [10, 45, 92]).col "prom_collection_rate", c.isStr = false)
    ∧ (((c2RateFrame [10, 45, 92]).col "prom_collection_rate").filter Cell.notna).filter
        (fun c => cellLtQ c 0 || cellGtQ c 1) ≠ []
    ∧ ((((validate_schema (c2RateFrame [10, 45, 92]) "msk_episodes"
          { contractId := "C-TEST" }).filter (fun f => f.metricName == "prom_collection_rate"))
      = (if 1 < qMax ((((c2RateFrame [10, 45, 92]).col "prom_collection_rate").filter
              Cell.notna).filterMap Cell.toQ)
            ∧ qMax ((((c2RateFrame [10, 45, 92]).col "prom_collection_rate").filter
              Cell.notna).filterMap Cell.toQ) ≤ 100 then
          [{ severity := "YELLOW", category := "schema", metricName := "prom_collection_rate",
             expectedValue := "0-1 proportion scale", contractId := "C-TEST" }]
        else
          [{ severity := "RED", category := "schema", metricName := "prom_collection_rate",
             expectedValue := "Between 0 and 1", contractId := "C-TEST" }]))
      ∧ ((validate_schema (c2RateFrame [1/10, 92/100, 45]) "msk_episodes" baseContract).filter
          (fun f => f.metricName == "prom_collection_rate")).map (fun f => f.severity)
        = ["YELLOW"]
      ∧ ((validate_schema (c2RateFrame [10, 45, 92]) "msk_episodes" baseContract).filter
          (fun f => f.metricName == "prom_collection_rate")).map (fun f => f.severity)
        = ["YELLOW"]) :=
  ⟨by with_unfolding_all decide, by with_unfolding_all decide, by with_unfolding_all decide,
   by with_unfolding_all decide,
   C2_rate_scale_heuristic (c2RateFrame [10, 45, 92]) "msk_episodes" "C-TEST"
     "prom_collection_rate" (by with_unfolding_all decide) (by with_unfolding_all decide)
     (by with_unfolding_all decide) (by with_unfolding_all decide)⟩

/-- C2 counterexample: a rate column holding [0.1, 0.92, 45] DOES trigger the
percentage-scale heuristic — validate_schema emits the YELLOW
"0-1 proportion scale" flag for it, not no flag and not a RED flag — because
the source only checks that the column maximum is in (1, 100]. -/
theorem C2_counterexample :
    ((validate_schema (c2RateFrame [1/10, 92/100, 45]) "msk_episodes" baseContract).filter
      (fun f => f.metricName == "prom_collection_rate")).map
        (fun f => (f.severity, f.expectedValue))
      = [("YELLOW", "0-1 proportion scale")] := by
  with_unfolding_all decide

/-! ## Claim C5 -/

/-- Minimal episode frame whose only column is a negative total cost. -/
def c5Frame : DataFrame := ⟨["total_cost"], [[("total_cost", Cell.num (-5))]]⟩

/-- Fully populated onc_drug_detail row whose total_cost is negative. -/
def drugRowNeg : Row :=
  [("drug_category", .str "chemo"), ("drug_name", .str "DrugA"),
   ("is_biosimilar", .str "False"), ("is_pathway", .str "True"),
   ("cancer_types_used", .str "Breast"), ("total_claims", .num 10),
   ("total_cost", .num (-100)), ("avg_cost_per_claim", .num 10),
   ("site_of_service_office_pct", .num (1/2)), ("site_of_service_hopd_pct", .num (1/2)),
   ("site_of_service_home_pct", .num 0), ("prior_year_total_cost", .num 100),
   ("prior_year_claims", .num 9), ("fda_approval_date", .str "2020-01-01"),
   ("is_novel_therapy", .str "False")]

def drugsNegDF : DataFrame := ⟨EXPECTED_COLUMNS "onc_drug_detail", [drugRowNeg]⟩

/-- C5 (amended): a numeric column whose name contains "cost" and that holds
a negative non-missing value yields exactly one RED schema flag for that
column — but only when the column is listed in the dataset's configured
numeric-column set, which is populated for the two episode datasets alone;
the quality and drug-detail datasets have an empty numeric-column list, so
their cost columns are never checked for negative values. -/
theorem C5_negative_cost_columns (df : DataFrame) (ds cid col : String)
    (hnodup : df.cols.Nodup) (hin : col ∈ df.cols)
    (hcost : strHas (strLower col) "cost" = true)
    (hnum : col ∈ NUMERIC_COLUMNS ds)
    (hviol : (df.col col).any (fun c => c.notna && cellLtQ c 0) = true) :
    ((schemaNegCostFlags df ds cid).filter (fun f => f.metricName == col))
      = [{ severity := "RED", category := "schema", metricName := col,
           expectedValue := ">= 0", contractId := cid }]
    ∧ ∀ f ∈ schemaNegCostFlags df ds cid, f ∈ validate_schema df ds { contractId := cid } := by
  have hflag : negCostColFlag df cid col =
      some { severity := "RED", category := "schema", metricName := col,
             expectedValue := ">= 0", contractId := cid } := by
    simp only [negCostColFlag, hviol, if_true]
  have hmemcost : col ∈ schemaCostCols df ds := by
    apply List.mem_filter.mpr
    refine ⟨hin, ?_⟩
    rw [Bool.and_eq_true, hcost]
    exact ⟨rfl, by simpa using hnum⟩
  have hfilter : ((schemaNegCostFlags df ds cid).filter (fun f => f.metricName == col))
      = (negCostColFlag df cid col).toList := by
    unfold schemaNegCostFlags
    exact filterMap_filter_name (negCostColFlag df cid)
      (fun c f h => negCostColFlag_name h)
      _ (hnodup.filter _) col hmemcost
  refine ⟨by rw [hfilter, hflag]; rfl, ?_⟩
  intro f hf
  have hsub : f ∈ schemaCheckFlags df ds cid := by
    unfold schemaCheckFlags
    simp [hf]
  have hne : (schemaCheckFlags df ds cid).isEmpty = false := by
    rcases h' : schemaCheckFlags df ds cid with _ | _
    · rw [h'] at hsub; cases hsub
    · rfl
  have hvs : validate_schema df ds { contractId := cid } = schemaCheckFlags df ds cid := by
    unfold validate_schema
    simp [hne]
  rw [hvs]
  exact hsub

/-- Witness for C5: an msk_episodes frame with a negative total_cost. -/
theorem C5_negative_cost_columns_witness :
    c5Frame.cols.Nodup
    ∧ "total_cost" ∈ c5Frame.cols
    ∧ strHas (strLower "total_cost") "cost" = true
    ∧ "total_cost" ∈ NUMERIC_COLUMNS "msk_episodes"
    ∧ (c5Frame.col "total_cost").any (fun c => c.notna && cellLtQ c 0) = true
    ∧ (((schemaNegCostFlags c5Frame "msk_episodes" "C-TEST").filter
          (fun f => f.metricName == "total_cost"))
        = [{ severity := "RED", category := "schema", metricName := "total_cost",
             expectedValue := ">= 0", contractId := "C-TEST" }]
      ∧ ∀ f ∈ schemaNegCostFlags c5Frame "msk_episodes" "C-TEST",
          f ∈ validate_schema c5Frame "msk_episodes" { contractId := "C-TEST" }) :=
  ⟨by with_unfolding_all decide, by with_unfolding_all decide, by with_unfolding_all decide,
   by with_unfolding_all decide, by with_unfolding_all decide,
   C5_negative_cost_columns c5Frame "msk_episodes" "C-TEST" "total_cost"
     (by with_unfolding_all decide) (by with_unfolding_all decide)
     (by with_unfolding_all decide) (by with_unfolding_all decide)
     (by with_unfolding_all decide)⟩

/-- C5 counterexample: an onc_drug_detail dataset with a negative non-missing
numeric total_cost passes schema validation with a single GREEN flag — no RED
flag for the cost column — because NUMERIC_COLUMNS has no entry for the
drug-detail (or quality) datasets, so its cost-column list is empty there. -/
theorem C5_counterexample :
    validate_schema drugsNegDF "onc_drug_detail" baseContract = [schemaPassFlag "C-TEST"]
    ∧ rowGetD drugRowNeg "total_cost" .na = .num (-100)
    ∧ strHas (strLower "total_cost") "cost" = true := by
  refine ⟨?_, ?_, ?_⟩ <;> with_unfolding_all decide

/-! ## Claim C6 -/

/-- A quality table without a measure_id column. -/
def qualNoMid : DataFrame := ⟨["measure_name"], []⟩

/-- C6: the claim says validate_arithmetic never raises and silently skips
checks whose columns are absent; but on a quality table lacking the
measure_id column the source's unguarded quality_df["measure_id"] lookup
raises KeyError instead of skipping the quality checks. -/
theorem C6_missing_measure_id_raises :
    validate_arithmetic (c1Frame 100 1000 100000) qualNoMid baseContract
      = .error "KeyError: measure_id" := by
  with_unfolding_all decide

/-! ## Claim C7 -/

/-- No schema check emits a GREEN flag; GREEN is reserved for the synthetic
pass flag. -/
theorem schemaCheckFlags_not_green (df : DataFrame) (ds cid : String) :
    ∀ f ∈ schemaCheckFlags df ds cid, f.severity ≠ "GREEN" := by
  intro f hf
  unfold schemaCheckFlags at hf
  simp only [List.mem_append] at hf
  rcases hf with ((((((h | h) | h) | h) | h) | h) | h) | h
  · simp only [schemaMissingFlags, List.mem_map] at h
    obtain ⟨c, _, rfl⟩ := h
    simp
  · simp only [schemaExtraFlags, List.mem_map] at h
    obtain ⟨c, _, rfl⟩ := h
    simp
  · simp only [schemaDtypeFlags, List.mem_filterMap] at h
    obtain ⟨c, _, hgc⟩ := h
    simp only [dtypeColFlag] at hgc
    split_ifs at hgc <;> cases hgc <;> simp
  · simp only [schemaCriticalFlags, List.mem_filterMap] at h
    obtain ⟨c, _, hgc⟩ := h
    simp only [criticalColFlag] at hgc
    split_ifs at hgc <;> cases hgc <;> simp
  · simp only [schemaEpCountFlags] at h
    split_ifs at h <;> simp at h
    rw [h]; simp
  · simp only [schemaNegCostFlags, List.mem_filterMap] at h
    obtain ⟨c, _, hgc⟩ := h
    simp only [negCostColFlag] at hgc
    split_ifs at hgc <;> cases hgc <;> simp
  · simp only [schemaRateFlags, List.mem_filterMap] at h
    obtain ⟨c, _, hgc⟩ := h
    simp only [rateColFlag] at hgc
    split_ifs at hgc <;> cases hgc <;> simp
  · simp only [schemaDispFlags] at h
    split_ifs at h
    · simp only [List.mem_filterMap] at h
      obtain ⟨r, _, hr⟩ := h
      split_ifs at hr <;> cases hr <;> simp
    · cases h

/-- Fully conforming msk_episodes row: all expected columns, numeric types,
no critical nulls, non-negative counts and costs, rates inside [0,1], and
discharge dispositions summing to exactly 1.0. -/
def mskGoodRow : Row :=
  [("episode_type", .str "TKR"), ("episode_count", .num 50),
   ("avg_episode_cost", .num 30000), ("target_price", .num 31000),
   ("total_cost", .num 1500000), ("total_target", .num 1550000),
   ("variance_pct", .num (-323/10000)), ("implant_cost_avg", .num 5000),
   ("facility_cost_avg", .num 15000), ("professional_cost_avg", .num 5000),
   ("post_acute_cost_avg", .num 4000), ("readmission_cost_avg", .num 1000),
   ("discharge_home_pct", .num (7/10)), ("discharge_snf_pct", .num (2/10)),
   ("discharge_irf_pct", .num (8/100)), ("discharge_other_pct", .num (2/100)),
   ("readmission_rate", .num (5/100)), ("er_visit_rate_90d", .num (8/100)),
   ("ssi_rate", .num (1/100)), ("revision_rate_12mo", .num (2/100)),
   ("avg_los_days", .num 3), ("avg_opioid_mme_discharge", .num 40),
   ("prom_collection_rate", .num (8/10)), ("prom_improvement_rate", .num (7/10)),
   ("prior_year_episode_count", .num 45), ("prior_year_avg_cost", .num 29000),
   ("risk_score_actual", .num (11/10)), ("risk_score_expected", .num (105/100))]

def mskGoodFrame : DataFrame := ⟨EXPECTED_COLUMNS "msk_episodes", [mskGoodRow]⟩

/-- Evaluation shape of validate_schema. -/
theorem validate_schema_eq (df : DataFrame) (ds : String) (ct : Contract) :
    validate_schema df ds ct =
      if (schemaCheckFlags df ds ct.contractId).isEmpty then [schemaPassFlag ct.contractId]
      else schemaCheckFlags df ds ct.contractId := rfl

/-- C7: validate_schema emits exactly one GREEN flag if and only if the
dataset produced zero other schema flags, and the returned list is never
empty; a fully conforming msk_episodes dataset yields exactly the single
GREEN pass flag. -/
theorem C7_schema_pass_flag (df : DataFrame) (ds : String) (ct : Contract) :
    validate_schema df ds ct ≠ []
    ∧ ((validate_schema df ds ct).countP (fun f => f.severity == "GREEN")
        = if schemaCheckFlags df ds ct.contractId = [] then 1 else 0)
    ∧ (schemaCheckFlags df ds ct.contractId = [] →
        validate_schema df ds ct = [schemaPassFlag ct.contractId])
    ∧ validate_schema mskGoodFrame "msk_episodes" baseContract
        = [schemaPassFlag "C-TEST"] := by
  refine ⟨?_, ?_, ?_, by with_unfolding_all decide⟩
  · rw [validate_schema_eq]
    split_ifs with h
    · simp
    · intro he
      exact h (by rw [he]; rfl)
  · rw [validate_schema_eq]
    rcases h : schemaCheckFlags df ds ct.contractId with _ | ⟨f, fs⟩
    · simp [schemaPassFlag]
    · have hie : ((f :: fs : List Flag)).isEmpty = false := rfl
      rw [hie]
      simp only [Bool.false_eq_true, if_false]
      rw [if_neg (by simp)]
      rw [List.countP_eq_zero]
      intro a ha
      have := schemaCheckFlags_not_green df ds ct.contractId a (by rw [h]; exact ha)
      simpa using this
  · intro h
    rw [validate_schema_eq, h]
    rfl

/-- Witness for C7: the conforming msk_episodes frame has no check flags and
validate_schema returns exactly the GREEN pass flag. -/
theorem C7_schema_pass_flag_witness :
    schemaCheckFlags mskGoodFrame "msk_episodes" baseContract.contractId = []
    ∧ validate_schema mskGoodFrame "msk_episodes" baseContract
        = [schemaPassFlag baseContract.contractId] :=
  ⟨by with_unfolding_all decide,
   (C7_schema_pass_flag mskGoodFrame "msk_episodes" baseContract).2.2.1
     (by with_unfolding_all decide)⟩

/-! ## Claim C4 -/

def c4Row : Row :=
  [("cancer_type", .str "Lung"), ("stage_group", .str "NSCLC"), ("line_of_therapy", .str "1L"),
   ("pathway_adherence_rate", .num (7/10)), ("avg_episode_cost", .num 120000),
   ("target_price", .num 100000)]

def c4Frame : DataFrame :=
  ⟨["cancer_type", "stage_group", "line_of_therapy", "pathway_adherence_rate",
    "avg_episode_cost", "target_price"], [c4Row]⟩

def c4Contract : Contract := { contractId := "ONC-2024-001", specialty := some "Oncology" }

/-- C4: the back-calculated non_pathway_cost_est satisfies the mixture
identity adherence·target + (1 − adherence)·non_pathway_cost_est = avg_cost
exactly, for every adherence ≠ 1; at adherence 0.70, avg 120000, target
100000 it equals 500000/3 = 166,666.67 up to rounding, the implied premium
(npc − target)/target is 2/3 = 0.6667 up to rounding, which exceeds 0.25, and
the oncology Cross-Metric Correlator emits exactly one RED
pathway_cost_correlation flag whose reported estimate is the rounded 166667. -/
theorem C4_pathway_back_calculation (ad avg t : ℚ) (had : ad ≠ 1) :
    (ad * t + (1 - ad) * nonPathwayEst ad avg t = avg)
    ∧ nonPathwayEst (7/10) 120000 100000 = 500000/3
    ∧ |nonPathwayEst (7/10) 120000 100000 - 16666667/100| < 1/100
    ∧ (nonPathwayEst (7/10) 120000 100000 - 100000) / 100000 = 2/3
    ∧ |(2/3 : ℚ) - 6667/10000| < 1/10000
    ∧ (1/4 : ℚ) < 2/3
    ∧ (validate_cross_metrics c4Frame qualMid c4Contract none).map
        (fun fs => fs.map (fun f => (f.severity, f.metricName,
          f.related.lookup "est_non_pathway_cost")))
      = .ok [("RED", "pathway_cost_correlation", some (.num (intToQ 166667)))] := by
  refine ⟨?_, by norm_num [nonPathwayEst],
    by rw [show nonPathwayEst (7/10) 120000 100000 = 500000/3 from by norm_num [nonPathwayEst],
           abs_lt]; norm_num,
    by norm_num [nonPathwayEst], by rw [abs_lt]; norm_num, by norm_num,
    by with_unfolding_all decide⟩
  unfold nonPathwayEst
  have h1 : (1 : ℚ) - ad ≠ 0 := fun hc => had (by linarith [sub_eq_zero.mp hc])
  field_simp

/-- Witness for C4: the theorem applied at adherence 0.70. -/
theorem C4_pathway_back_calculation_witness :
    (7/10 : ℚ) ≠ 1 ∧
    (7/10 : ℚ) * 100000 + (1 - 7/10) * nonPathwayEst (7/10) 120000 100000 = 120000 :=
  ⟨by norm_num, by
    have h := (C4_pathway_back_calculation (7/10) 120000 100000 (by norm_num)).1
    linarith [h]⟩

/-! ## Claim C3 -/

instance : IsTotal Candidate (fun a b => a.gap ≤ b.gap) := ⟨fun a b => le_total a.gap b.gap⟩

instance : IsTrans Candidate (fun a b => a.gap ≤ b.gap) := ⟨fun _ _ _ hab hbc => le_trans hab hbc⟩

/-- Improvement candidates are built only from measures with a positive
point gap. -/
theorem candOf_pos {r : Row} {cd : Candidate} (h : candOf r = some cd) : 0 < cd.gap := by
  unfold candOf at h
  rcases h1 : (rowGetD r "points_earned" (Cell.num 0)).toQ with _ | cur
  · rw [h1] at h; cases h
  rcases h2 : (rowGetD r "max_points" (Cell.num 0)).toQ with _ | mv
  · rw [h1, h2] at h; cases h
  rw [h1, h2] at h
  dsimp only at h
  split_ifs at h with h3
  · cases h; exact h3

/-- C3: when the quality composite percentage e/m·100 from the COMP row falls
below the contract's gate minimum, the Cross-Metric Correlator emits exactly
one RED flag: for a gap in (0,5] the near-miss quality_gate_proximity variant
whose at-risk estimate is max(0, Σ(total_target − total_cost)) ·
sharing_rate_savings, and additionally the specialty rule emits one flag
carrying at most 3 improvement candidates drawn from the non-composite
measures with positive point gap, sorted ascending by gap; for a gap above 5
the plain quality_gate_failure variant with no dollar estimate, and the
specialty rule emits nothing. -/
theorem C3_quality_gate (qual eps : DataFrame) (ct : Contract) (r0 : Row) (rest : List Row)
    (hmid : "measure_id" ∈ qual.cols)
    (hcomp : qual.rows.filter (fun r => cellContains (rowGetD r "measure_id" .na) "COMP")
      = r0 :: rest)
    (e m : ℚ)
    (he : (rowGetD r0 "points_earned" (.num 0)).toQ = some e)
    (hm : (rowGetD r0 "max_points" (.num 0)).toQ = some m)
    (hmpos : 0 < m)
    (hgap : 0 < ct.qualityGateMinimum.getD 0 - e / m * 100) :
    (ct.qualityGateMinimum.getD 0 - e / m * 100 ≤ 5 →
      crossGateFlags qual eps ct =
        [{ severity := "RED", category := "cross_metric",
           metricName := "quality_gate_proximity", episodeType := .str "Quality Gate",
           contractId := ct.contractId,
           related := [("composite_earned", .num e), ("composite_max", .num m),
                       ("composite_pct", .num (pyRoundTo (e / m * 100) 1)),
                       ("gate_minimum", .num (ct.qualityGateMinimum.getD 0)),
                       ("estimated_savings_at_risk", .num (intToQ (pyRound
                         (max 0 ((eps.rows.map gateSavingsTerm).sum) *
                           ct.sharingRateSavings.getD 0))))] }]
      ∧ ruleQualityGate qual eps ct = .ok
          [{ severity := "RED", category := "specialty",
             metricName := "quality_gate_improvement_path", episodeType := .str "Quality Gate",
             contractId := ct.contractId,
             related := [("composite_pct", .num (pyRoundTo (e / m * 100) 1)),
                         ("gate_minimum", .num (ct.qualityGateMinimum.getD 0)),
                         ("gap_points", .num (pyRoundTo
                           (ct.qualityGateMinimum.getD 0 - e / m * 100) 1)),
                         ("savings_at_risk", .num (intToQ (pyRound
                           (max 0 ((eps.rows.map gateSavingsTerm).sum) *
                             ct.sharingRateSavings.getD 0))))],
             candidates := (List.insertionSort (fun a b => a.gap ≤ b.gap)
               ((qual.rows.filter (fun r =>
                 !cellContains (rowGetD r "measure_id" .na) "COMP")).filterMap candOf)).take 3 }]
      ∧ ((List.insertionSort (fun a b => a.gap ≤ b.gap)
           ((qual.rows.filter (fun r =>
             !cellContains (rowGetD r "measure_id" .na) "COMP")).filterMap candOf)).take 3).length ≤ 3
      ∧ List.Sorted (fun a b : Candidate => a.gap ≤ b.gap)
          ((List.insertionSort (fun a b => a.gap ≤ b.gap)
            ((qual.rows.filter (fun r =>
              !cellContains (rowGetD r "measure_id" .na) "COMP")).filterMap candOf)).take 3)
      ∧ ∀ cd ∈ (List.insertionSort (fun a b => a.gap ≤ b.gap)
            ((qual.rows.filter (fun r =>
              !cellContains (rowGetD r "measure_id" .na) "COMP")).filterMap candOf)).take 3,
          cd ∈ (qual.rows.filter (fun r =>
            !cellContains (rowGetD r "measure_id" .na) "COMP")).filterMap candOf ∧ 0 < cd.gap)
    ∧ (5 < ct.qualityGateMinimum.getD 0 - e / m * 100 →
      crossGateFlags qual eps ct =
        [{ severity := "RED", category := "cross_metric",
           metricName := "quality_gate_failure", episodeType := .str "Quality Gate",
           contractId := ct.contractId, related := [] }]
      ∧ ruleQualityGate qual eps ct = .ok []) := by
  constructor
  · intro hle
    refine ⟨?_, ?_, ?_, ?_, ?_⟩
    · simp only [crossGateFlags, hcomp, he, hm]
      rw [if_pos hmpos, if_pos ⟨hgap, hle⟩]
    · simp only [ruleQualityGate]
      rw [show qual.colE "measure_id" = .ok (qual.col "measure_id") from by
        simp [DataFrame.colE, hmid]]
      simp only [hcomp, List.head?, Bind.bind, Except.bind, pure, Except.pure]
      rw [he, hm]
      dsimp only
      rw [if_neg hmpos.ne', if_neg (by push_neg; exact ⟨hgap, hle⟩)]
    · exact List.length_take_le _ _
    · exact (List.sorted_insertionSort _ _).sublist (List.take_sublist _ _)
    · intro cd hcd
      have hmem : cd ∈ (qual.rows.filter (fun r =>
          !cellContains (rowGetD r "measure_id" .na) "COMP")).filterMap candOf :=
        (List.perm_insertionSort _ _).subset (List.take_subset _ _ hcd)
      obtain ⟨r, _, hr⟩ := List.mem_filterMap.mp hmem
      exact ⟨hmem, candOf_pos hr⟩
  · intro hgt
    refine ⟨?_, ?_⟩
    · simp only [crossGateFlags, hcomp, he, hm]
      rw [if_pos hmpos, if_neg (by intro hc; exact absurd hgt (not_lt.mpr hc.2)), if_pos hgap]
    · simp only [ruleQualityGate]
      rw [show qual.colE "measure_id" = .ok (qual.col "measure_id") from by
        simp [DataFrame.colE, hmid]]
      simp only [hcomp, List.head?, Bind.bind, Except.bind, pure, Except.pure]
      rw [he, hm]
      dsimp only
      rw [if_neg hmpos.ne', if_pos (Or.inr hgt)]

/-- COMP row of the concrete C3 instance: composite 83 of 100 points. -/
def c3CompRow : Row :=
  [("measure_id", .str "ONC-COMP"), ("measure_name", .str "Composite"),
   ("points_earned", .num 83), ("max_points", .num 100),
   ("rate", .na), ("target", .na)]

def c3Qual : DataFrame :=
  ⟨["measure_id", "measure_name", "points_earned", "max_points", "rate", "target"],
   [c3CompRow,
    [("measure_id", .str "ONC-Q-001"), ("measure_name", .str "M1"),
     ("points_earned", .num 8), ("max_points", .num 10),
     ("rate", .num (8/10)), ("target", .num (9/10))],
    [("measure_id", .str "ONC-Q-002"), ("measure_name", .str "M2"),
     ("points_earned", .num 9), ("max_points", .num 10),
     ("rate", .num (9/10)), ("target", .num (9/10))],
    [("measure_id", .str "ONC-Q-003"), ("measure_name", .str "M3"),
     ("points_earned", .num 5), ("max_points", .num 10),
     ("rate", .num (5/10)), ("target", .num (9/10))],
    [("measure_id", .str "ONC-Q-004"), ("measure_name", .str "M4"),
     ("points_earned", .num 10), ("max_points", .num 10),
     ("rate", .num 1), ("target", .num (9/10))]]⟩

def c3Eps : DataFrame :=
  ⟨["total_cost", "total_target"],
   [[("total_cost", .num 900000), ("total_target", .num 1000000)]]⟩

def c3Contract : Contract :=
  { contractId := "ONC-2024-001", specialty := some "Oncology",
    qualityGateMinimum := some 85, sharingRateSavings := some (1/2) }

/-- Witness for C3: composite 83 percent against a gate minimum of 85. -/
theorem C3_quality_gate_witness :
    ("measure_id" ∈ c3Qual.cols)
    ∧ (c3Qual.rows.filter (fun r => cellContains (rowGetD r "measure_id" .na) "COMP")
       = c3CompRow :: [])
    ∧ ((rowGetD c3CompRow "points_earned" (.num 0)).toQ = some 83)
    ∧ ((rowGetD c3CompRow "max_points" (.num 0)).toQ = some 100)
    ∧ ((0 : ℚ) < 100)
    ∧ (0 < c3Contract.qualityGateMinimum.getD 0 - 83 / 100 * 100)
    ∧ ((c3Contract.qualityGateMinimum.getD 0 - 83 / 100 * 100 ≤ 5 →
        crossGateFlags c3Qual c3Eps c3Contract =
          [{ severity := "RED", category := "cross_metric",
             metricName := "quality_gate_proximity", episodeType := .str "Quality Gate",
             contractId := c3Contract.contractId,
             related := [("composite_earned", .num 83), ("composite_max", .num 100),
                         ("composite_pct", .num (pyRoundTo (83 / 100 * 100) 1)),
                         ("gate_minimum", .num (c3Contract.qualityGateMinimum.getD 0)),
                         ("estimated_savings_at_risk", .num (intToQ (pyRound
                           (max 0 ((c3Eps.rows.map gateSavingsTerm).sum) *
                             c3Contract.sharingRateSavings.getD 0))))] }]
        ∧ ruleQualityGate c3Qual c3Eps c3Contract = .ok
            [{ severity := "RED", category := "specialty",
               metricName := "quality_gate_improvement_path", episodeType := .str "Quality Gate",
               contractId := c3Contract.contractId,
               related := [("composite_pct", .num (pyRoundTo (83 / 100 * 100) 1)),
                           ("gate_minimum", .num (c3Contract.qualityGateMinimum.getD 0)),
                           ("gap_points", .num (pyRoundTo
                             (c3Contract.qualityGateMinimum.getD 0 - 83 / 100 * 100) 1)),
                           ("savings_at_risk", .num (intToQ (pyRound
                             (max 0 ((c3Eps.rows.map gateSavingsTerm).sum) *
                               c3Contract.sharingRateSavings.getD 0))))],
               candidates := (List.insertionSort (fun a b => a.gap ≤ b.gap)
                 ((c3Qual.rows.filter (fun r =>
                   !cellContains (rowGetD r "measure_id" .na) "COMP")).filterMap candOf)).take 3 }]
        ∧ ((List.insertionSort (fun a b => a.gap ≤ b.gap)
             ((c3Qual.rows.filter (fun r =>
               !cellContains (rowGetD r "measure_id" .na) "COMP")).filterMap candOf)).take 3).length ≤ 3
        ∧ List.Sorted (fun a b : Candidate => a.gap ≤ b.gap)
            ((List.insertionSort (fun a b => a.gap ≤ b.gap)
              ((c3Qual.rows.filter (fun r =>
                !cellContains (rowGetD r "measure_id" .na) "COMP")).filterMap candOf)).take 3)
        ∧ ∀ cd ∈ (List.insertionSort (fun a b => a.gap ≤ b.gap)
              ((c3Qual.rows.filter (fun r =>
                !cellContains (rowGetD r "measure_id" .na) "COMP")).filterMap candOf)).take 3,
            cd ∈ (c3Qual.rows.filter (fun r =>
              !cellContains (rowGetD r "measure_id" .na) "COMP")).filterMap candOf ∧ 0 < cd.gap)
      ∧ (5 < c3Contract.qualityGateMinimum.getD 0 - 83 / 100 * 100 →
        crossGateFlags c3Qual c3Eps c3Contract =
          [{ severity := "RED", category := "cross_metric",
             metricName := "quality_gate_failure", episodeType := .str "Quality Gate",
             contractId := c3Contract.contractId, related := [] }]
        ∧ ruleQualityGate c3Qual c3Eps c3Contract = .ok [])) :=
  ⟨by with_unfolding_all decide, by with_unfolding_all decide, by with_unfolding_all decide,
   by with_unfolding_all decide, by norm_num, by with_unfolding_all decide,
   C3_quality_gate c3Qual c3Eps c3Contract c3CompRow [] (by with_unfolding_all decide)
     (by with_unfolding_all decide) 83 100 (by with_unfolding_all decide)
     (by with_unfolding_all decide) (by norm_num) (by with_unfolding_all decide)⟩

/-! ## Claim C10 -/

/-- C10: for every MSK episode row whose episode_type contains the substring
"Conservative", the opioid-MME rule, the PROM-reliability rule, and the
utilization and quality-target range checks emit no flags at all, regardless
of the row's metric values or the reference-range configuration. -/
theorem C10_conservative_rows_skipped (rr : RefRanges) (cid : String) (r : Row)
    (h : strHas (rowGetD r "episode_type" (.str "")).pyStr "Conservative" = true) :
    mskOpioidRow cid r = [] ∧ mskPromRow cid r = []
    ∧ rangeMskUtilRow rr cid r = [] ∧ rangeMskQualityRow rr cid r = [] := by
  refine ⟨?_, ?_, ?_, ?_⟩ <;>
    simp [mskOpioidRow, mskPromRow, rangeMskUtilRow, rangeMskQualityRow, h]

/-- A Conservative LBP row with an extreme opioid MME of 200, a PROM
collection rate of 10 percent and a readmission rate of 100 percent. -/
def c10Row : Row :=
  [("episode_type", .str "Conservative LBP"), ("avg_opioid_mme_discharge", .num 200),
   ("prom_collection_rate", .num (1/10)), ("readmission_rate", .num 1)]

/-- Reference ranges under which a non-Conservative row with c10Row's values
would be flagged. -/
def c10Ranges : RefRanges :=
  { utilizationRangesMa :=
      [("opioid_mme_discharge_avg", { minQ := some 0, maxQ := some 50, expected := some 35 }),
       ("prom_collection_rate", { minQ := some (1/2), maxQ := some 1, expected := some (4/5) })],
    qualityTargets := [("readmit_90day", { target := some (1/20), maxAcceptable := some (2/25) })] }

/-- Witness for C10: the Conservative LBP row with MME 200 produces no flag
from any of the four checks. -/
theorem C10_conservative_rows_skipped_witness :
    (strHas (rowGetD c10Row "episode_type" (.str "")).pyStr "Conservative" = true)
    ∧ (mskOpioidRow "MSK-2024-001" c10Row = [] ∧ mskPromRow "MSK-2024-001" c10Row = []
       ∧ rangeMskUtilRow c10Ranges "MSK-2024-001" c10Row = []
       ∧ rangeMskQualityRow c10Ranges "MSK-2024-001" c10Row = []) :=
  ⟨by with_unfolding_all decide,
   C10_conservative_rows_skipped c10Ranges "MSK-2024-001" c10Row (by with_unfolding_all decide)⟩

/-! ## Claim C9 -/

/-- C9: in the novel-therapy carve-out rule the reported provider-share
impact exactly equals round(novel_total_cost x sharing_rate_savings):
the Option-valued savings algebra satisfies
(tt - (tc - n)) - (tt - tc) = n for all inputs, and whenever
ruleNovelTherapy emits a flag, the flag's provider_share_impact is
round(novel_total x rate), its savings_before_carveout is
round(total_target - total_cost) and its savings_after_carveout is
round(total_target - total_cost + novel_total). -/
theorem C9_novel_therapy_impact :
    (∀ tt tc n : ℚ, oSub (oSub (some tt) (oSub (some tc) (some n))) (some (tt - tc)) = some n)
    ∧ ∀ (drugs eps : DataFrame) (ct : Contract) (fs : List Flag) (f : Flag),
        ruleNovelTherapy drugs eps ct = .ok fs → f ∈ fs →
        ∃ (asOf : PyDate) (n : ℚ),
          parseDate (ct.dataAsOf.getD "2025-01-15") = some asOf
          ∧ novelTotalCost (novelDrugsOf drugs
              (subMonths asOf (ct.novelTherapyLookbackMonths.getD 18))) = some n
          ∧ f.related.lookup "provider_share_impact"
              = some (.num (intToQ (pyRound (n * ct.sharingRateSavings.getD 0))))
          ∧ f.related.lookup "savings_before_carveout"
              = some (.num (intToQ (pyRound
                  (colSum (eps.col "total_target") - colSum (eps.col "total_cost")))))
          ∧ f.related.lookup "savings_after_carveout"
              = some (.num (intToQ (pyRound
                  (colSum (eps.col "total_target") - colSum (eps.col "total_cost") + n)))) := by
  constructor
  · intro tt tc n
    simp only [oSub]
    congr 1
    ring
  intro drugs eps ct fs f hok hf
  simp only [ruleNovelTherapy] at hok
  split at hok
  · simp only [pure, Except.pure] at hok
    cases hok
    cases hf
  rcases hdate : parseDate (ct.dataAsOf.getD "2025-01-15") with _ | asOf
  all_goals rw [hdate] at hok
  · simp only [pure, Except.pure] at hok
    cases hok
    cases hf
  dsimp only at hok
  split at hok
  · simp only [pure, Except.pure] at hok
    cases hok
    cases hf
  simp only [Bind.bind, Except.bind, pure, Except.pure] at hok
  by_cases htc : "total_cost" ∈ eps.cols
  swap
  · rw [show eps.colE "total_cost" = Except.error ("KeyError: " ++ "total_cost") from by
      simp [DataFrame.colE, htc]] at hok
    cases hok
  rw [show eps.colE "total_cost" = .ok (eps.col "total_cost") from by
    simp [DataFrame.colE, htc]] at hok
  dsimp only at hok
  by_cases htt : "total_target" ∈ eps.cols
  swap
  · rw [show eps.colE "total_target" = Except.error ("KeyError: " ++ "total_target") from by
      simp [DataFrame.colE, htt]] at hok
    cases hok
  rw [show eps.colE "total_target" = .ok (eps.col "total_target") from by
    simp [DataFrame.colE, htt]] at hok
  dsimp only at hok
  rcases hnov : novelTotalCost (novelDrugsOf drugs
      (subMonths asOf (ct.novelTherapyLookbackMonths.getD 18))) with _ | n
  all_goals rw [hnov] at hok
  · simp only [oSub, roundE] at hok
    cases hok
  simp only [oSub, oMul, roundE] at hok
  cases hok
  rcases hf with _ | ⟨_, hf⟩
  · refine ⟨asOf, n, rfl, hnov, ?_, ?_, ?_⟩
    · simp only [List.lookup]
      norm_num
      rfl
    · simp only [List.lookup]
      norm_num
      rfl
    · rw [show colSum (eps.col "total_target") - colSum (eps.col "total_cost") + n
            = colSum (eps.col "total_target") - (colSum (eps.col "total_cost") - n) from by ring]
      simp only [List.lookup]
      norm_num
      rfl
  · cases hf

def c9Drugs : DataFrame :=
  ⟨["drug_name", "is_novel_therapy", "fda_approval_date", "total_cost"],
   [[("drug_name", .str "CAR-T Therapy"), ("is_novel_therapy", .str "True"),
     ("fda_approval_date", .str "2024-06-01"), ("total_cost", .num (natToQ 100000))]]⟩

def c9Eps : DataFrame :=
  ⟨["total_cost", "total_target"],
   [[("total_cost", .num (natToQ 900000)), ("total_target", .num (natToQ 950000))]]⟩

def c9Contract : Contract :=
  { contractId := "ONC-2024-001", novelTherapyCarveout := some true,
    sharingRateSavings := some (1/2) }

def c9Flag : Flag :=
  { severity := "YELLOW", category := "specialty",
    metricName := "novel_therapy_carveout",
    expectedValue := "These costs may be carved out per contract terms",
    episodeType := .str "Drug Detail", contractId := "ONC-2024-001",
    related := [("novel_total_cost", .num (natToQ 100000)),
                ("savings_before_carveout", .num (intToQ 50000)),
                ("savings_after_carveout", .num (intToQ 150000)),
                ("provider_share_impact", .num (intToQ 50000))] }

theorem C9_novel_therapy_impact_witness :
    (ruleNovelTherapy c9Drugs c9Eps c9Contract = .ok [c9Flag] ∧ c9Flag ∈ [c9Flag])
    ∧ ∃ (asOf : PyDate) (n : ℚ),
        parseDate (c9Contract.dataAsOf.getD "2025-01-15") = some asOf
        ∧ novelTotalCost (novelDrugsOf c9Drugs
            (subMonths asOf (c9Contract.novelTherapyLookbackMonths.getD 18))) = some n
        ∧ c9Flag.related.lookup "provider_share_impact"
            = some (.num (intToQ (pyRound (n * c9Contract.sharingRateSavings.getD 0))))
        ∧ c9Flag.related.lookup "savings_before_carveout"
            = some (.num (intToQ (pyRound
                (colSum (c9Eps.col "total_target") - colSum (c9Eps.col "total_cost")))))
        ∧ c9Flag.related.lookup "savings_after_carveout"
            = some (.num (intToQ (pyRound
                (colSum (c9Eps.col "total_target") - colSum (c9Eps.col "total_cost") + n)))) :=
  ⟨⟨by with_unfolding_all decide, List.Mem.head _⟩,
   C9_novel_therapy_impact.2 c9Drugs c9Eps c9Contract [c9Flag] c9Flag
     (by with_unfolding_all decide) (List.Mem.head _)⟩


/-! ## Claim C8 -/

/-- A flag with its identifier blanked: every field the id counters do not
touch. -/
def eraseId (f : Flag) : Flag := { f with idTag := "", idNum := 0 }

theorem assignIds_map_eraseId (t : String) (c : ℕ) (l : List Flag) :
    (assignIds t c l).map eraseId = l.map eraseId := by
  induction l generalizing c with
  | nil => rfl
  | cons f fs ih =>
    simp only [assignIds, List.map_cons, ih]
    rfl

theorem assignIds_mem {t : String} {c : ℕ} {l : List Flag} {f : Flag}
    (h : f ∈ assignIds t c l) : f.idTag = t ∧ c < f.idNum ∧ f.idNum ≤ c + l.length := by
  induction l generalizing c with
  | nil => cases h
  | cons g gs ih =>
    rcases h with _ | ⟨_, h⟩
    · exact ⟨rfl, Nat.lt_succ_self _, by simp [Nat.succ_le_succ, Nat.le_add_right]⟩
    · obtain ⟨h1, h2, h3⟩ := ih h
      refine ⟨h1, by omega, by simp only [List.length_cons]; omega⟩

theorem assignIds_pairwise (t : String) (c : ℕ) (l : List Flag) :
    List.Pairwise (fun f g => f.idNum < g.idNum) (assignIds t c l) := by
  induction l generalizing c with
  | nil => exact List.Pairwise.nil
  | cons g gs ih =>
    exact List.Pairwise.cons (fun g' hg' => (assignIds_mem hg').2.1) (ih (c + 1))

theorem pipelineChain_pairwise (cs ca cr cx cm co : ℕ)
    (s1 s2 a1 r1 x1 m1 s3 s4 a2 r2 x2 o1 : List Flag) :
    List.Pairwise (fun f g => f.idTag = g.idTag → f.idNum < g.idNum)
      (assignIds "SCHEMA" cs s1 ++ assignIds "SCHEMA" (cs + s1.length) s2 ++
       assignIds "ARITH" ca a1 ++ assignIds "RANGE" cr r1 ++
       assignIds "CROSS" cx x1 ++ assignIds "MSK" cm m1 ++
       assignIds "SCHEMA" (cs + s1.length + s2.length) s3 ++
       assignIds "SCHEMA" (cs + s1.length + s2.length + s3.length) s4 ++
       assignIds "ARITH" (ca + a1.length) a2 ++ assignIds "RANGE" (cr + r1.length) r2 ++
       assignIds "CROSS" (cx + x1.length) x2 ++ assignIds "ONC" co o1) := by
  simp only [List.pairwise_append, List.mem_append, or_imp, forall_and, imp_and]
  repeat' apply And.intro
  all_goals first
    | exact List.Pairwise.imp (fun h _ => h) (assignIds_pairwise _ _ _)
    | exact List.Pairwise.imp (fun _ _ h _ => h) (assignIds_pairwise _ _ _)
    | (refine List.Pairwise.imp ?_ (assignIds_pairwise _ _ _)
       intro a b h _
       exact h)
    | (intro f hf g hg he
       obtain ⟨hft, hf1, hf2⟩ := assignIds_mem hf
       obtain ⟨hgt, hg1, hg2⟩ := assignIds_mem hg
       rw [hft, hgt] at he
       first
         | exact absurd he (by decide)
         | omega)

theorem pipelineChain_mem (cs ca cr cx cm co : ℕ)
    (s1 s2 a1 r1 x1 m1 s3 s4 a2 r2 x2 o1 : List Flag) (f : Flag)
    (hf : f ∈ (assignIds "SCHEMA" cs s1 ++ assignIds "SCHEMA" (cs + s1.length) s2 ++
       assignIds "ARITH" ca a1 ++ assignIds "RANGE" cr r1 ++
       assignIds "CROSS" cx x1 ++ assignIds "MSK" cm m1 ++
       assignIds "SCHEMA" (cs + s1.length + s2.length) s3 ++
       assignIds "SCHEMA" (cs + s1.length + s2.length + s3.length) s4 ++
       assignIds "ARITH" (ca + a1.length) a2 ++ assignIds "RANGE" (cr + r1.length) r2 ++
       assignIds "CROSS" (cx + x1.length) x2 ++ assignIds "ONC" co o1)) :
    (f.idTag = "SCHEMA" ∧ cs < f.idNum
      ∧ f.idNum ≤ cs + s1.length + s2.length + s3.length + s4.length)
    ∨ (f.idTag = "ARITH" ∧ ca < f.idNum ∧ f.idNum ≤ ca + a1.length + a2.length)
    ∨ (f.idTag = "RANGE" ∧ cr < f.idNum ∧ f.idNum ≤ cr + r1.length + r2.length)
    ∨ (f.idTag = "CROSS" ∧ cx < f.idNum ∧ f.idNum ≤ cx + x1.length + x2.length)
    ∨ (f.idTag = "MSK" ∧ cm < f.idNum ∧ f.idNum ≤ cm + m1.length)
    ∨ (f.idTag = "ONC" ∧ co < f.idNum ∧ f.idNum ≤ co + o1.length) := by
  simp only [List.mem_append] at hf
  rcases hf with ((((((((((hf | hf) | hf) | hf) | hf) | hf) | hf) | hf) | hf) | hf) | hf) | hf
  all_goals
    obtain ⟨h1, h2, h3⟩ := assignIds_mem hf
    first
      | exact Or.inl ⟨h1, by omega, by omega⟩
      | exact Or.inr (Or.inl ⟨h1, by omega, by omega⟩)
      | exact Or.inr (Or.inr (Or.inl ⟨h1, by omega, by omega⟩))
      | exact Or.inr (Or.inr (Or.inr (Or.inl ⟨h1, by omega, by omega⟩)))
      | exact Or.inr (Or.inr (Or.inr (Or.inr (Or.inl ⟨h1, by omega, by omega⟩))))
      | exact Or.inr (Or.inr (Or.inr (Or.inr (Or.inr ⟨h1, by omega, by omega⟩))))

theorem runPipeline_ok {c : Counters} {inp : PipelineInput} {fl : List Flag} {c' : Counters}
    (hok : runPipeline c inp = .ok (fl, c')) :
    ∃ a1 x1 m1 a2 x2 o1,
      validate_arithmetic inp.mskEpisodes inp.mskQuality inp.mskContract = .ok a1
      ∧ validate_cross_metrics inp.mskEpisodes inp.mskQuality inp.mskContract none = .ok x1
      ∧ validate_msk_rules inp.mskEpisodes inp.mskQuality inp.mskRanges inp.mskContract = .ok m1
      ∧ validate_arithmetic inp.oncEpisodes inp.oncQuality inp.oncContract = .ok a2
      ∧ validate_cross_metrics inp.oncEpisodes inp.oncQuality inp.oncContract
          (some inp.oncDrugs) = .ok x2
      ∧ validate_onc_rules inp.oncEpisodes inp.oncQuality inp.oncDrugs
          inp.oncRanges inp.oncContract = .ok o1
      ∧ (letI s1 := validate_schema inp.mskEpisodes "msk_episodes" inp.mskContract
         letI s2 := validate_schema inp.mskQuality "msk_quality" inp.mskContract
         letI s3 := validate_schema inp.oncEpisodes "onc_episodes" inp.oncContract
         letI s4 := validate_schema inp.oncQuality "onc_quality" inp.oncContract
         letI r1 := validate_ranges inp.mskEpisodes inp.mskRanges inp.mskContract
         letI r2 := validate_ranges inp.oncEpisodes inp.oncRanges inp.oncContract
         fl = assignIds "SCHEMA" c.schemaC s1 ++ assignIds "SCHEMA" (c.schemaC + s1.length) s2 ++
              assignIds "ARITH" c.arithC a1 ++ assignIds "RANGE" c.rangeC r1 ++
              assignIds "CROSS" c.crossC x1 ++ assignIds "MSK" c.mskC m1 ++
              assignIds "SCHEMA" (c.schemaC + s1.length + s2.length) s3 ++
              assignIds "SCHEMA" (c.schemaC + s1.length + s2.length + s3.length) s4 ++
              assignIds "ARITH" (c.arithC + a1.length) a2 ++
              assignIds "RANGE" (c.rangeC + r1.length) r2 ++
              assignIds "CROSS" (c.crossC + x1.length) x2 ++ assignIds "ONC" c.oncC o1
         ∧ c' = { schemaC := c.schemaC + s1.length + s2.length + s3.length + s4.length,
                  arithC := c.arithC + a1.length + a2.length,
                  rangeC := c.rangeC + r1.length + r2.length,
                  crossC := c.crossC + x1.length + x2.length,
                  mskC := c.mskC + m1.length,
                  oncC := c.oncC + o1.length }) := by
  simp only [runPipeline, Bind.bind, Except.bind] at hok
  rcases h1 : validate_arithmetic inp.mskEpisodes inp.mskQuality inp.mskContract with e | a1
  all_goals rw [h1] at hok
  · cases hok
  rcases h2 : validate_cross_metrics inp.mskEpisodes inp.mskQuality inp.mskContract none
    with e | x1
  all_goals rw [h2] at hok
  · cases hok
  rcases h3 : validate_msk_rules inp.mskEpisodes inp.mskQuality inp.mskRanges inp.mskContract
    with e | m1
  all_goals rw [h3] at hok
  · cases hok
  rcases h4 : validate_arithmetic inp.oncEpisodes inp.oncQuality inp.oncContract with e | a2
  all_goals rw [h4] at hok
  · cases hok
  rcases h5 : validate_cross_metrics inp.oncEpisodes inp.oncQuality inp.oncContract
      (some inp.oncDrugs) with e | x2
  all_goals rw [h5] at hok
  · cases hok
  rcases h6 : validate_onc_rules inp.oncEpisodes inp.oncQuality inp.oncDrugs
      inp.oncRanges inp.oncContract with e | o1
  all_goals rw [h6] at hok
  · cases hok
  simp only [pure, Except.pure, Except.ok.injEq, Prod.mk.injEq] at hok
  exact ⟨a1, x1, m1, a2, x2, o1, rfl, rfl, rfl, rfl, rfl, rfl, hok.1.symm, hok.2.symm⟩


/-- C8: running the pipeline twice on identical input produces identical flag
sequences (same count, ordering and field values) up to the flag identifiers;
within one run the numeric id suffixes are strictly increasing inside each
category prefix; and when a second run continues from the first run's final
counters, every id of the second run is strictly above every same-category id
of the first, i.e. the suffixes are strictly increasing over the process
lifetime and reset only with the counters. -/
theorem C8_idempotence_modulo_ids :
    (∀ (c₁ c₂ : Counters) (inp : PipelineInput) (fl₁ fl₂ : List Flag) (c₁' c₂' : Counters),
       runPipeline c₁ inp = .ok (fl₁, c₁') → runPipeline c₂ inp = .ok (fl₂, c₂') →
       fl₁.map eraseId = fl₂.map eraseId)
    ∧ (∀ (c : Counters) (inp : PipelineInput) (fl : List Flag) (c' : Counters),
       runPipeline c inp = .ok (fl, c') →
       List.Pairwise (fun f g => f.idTag = g.idTag → f.idNum < g.idNum) fl)
    ∧ (∀ (c : Counters) (inp : PipelineInput) (fl₁ fl₂ : List Flag) (c' c'' : Counters),
       runPipeline c inp = .ok (fl₁, c') → runPipeline c' inp = .ok (fl₂, c'') →
       ∀ f ∈ fl₁, ∀ g ∈ fl₂, f.idTag = g.idTag → f.idNum < g.idNum) := by
  refine ⟨?_, ?_, ?_⟩
  · intro c₁ c₂ inp fl₁ fl₂ c₁' c₂' h₁ h₂
    obtain ⟨a1, x1, m1, a2, x2, o1, e1, e2, e3, e4, e5, e6, hfl1, -⟩ := runPipeline_ok h₁
    obtain ⟨b1, y1, n1, b2, y2, p1, f1, f2, f3, f4, f5, f6, hfl2, -⟩ := runPipeline_ok h₂
    rw [e1] at f1
    rw [e2] at f2
    rw [e3] at f3
    rw [e4] at f4
    rw [e5] at f5
    rw [e6] at f6
    cases f1
    cases f2
    cases f3
    cases f4
    cases f5
    cases f6
    generalize validate_schema inp.mskEpisodes "msk_episodes" inp.mskContract = s1 at hfl1 hfl2
    generalize validate_schema inp.mskQuality "msk_quality" inp.mskContract = s2 at hfl1 hfl2
    generalize validate_schema inp.oncEpisodes "onc_episodes" inp.oncContract = s3 at hfl1 hfl2
    generalize validate_schema inp.oncQuality "onc_quality" inp.oncContract = s4 at hfl1 hfl2
    generalize validate_ranges inp.mskEpisodes inp.mskRanges inp.mskContract = r1 at hfl1 hfl2
    generalize validate_ranges inp.oncEpisodes inp.oncRanges inp.oncContract = r2 at hfl1 hfl2
    subst hfl1 hfl2
    simp only [List.map_append, assignIds_map_eraseId]
  · intro c inp fl c' h
    obtain ⟨a1, x1, m1, a2, x2, o1, -, -, -, -, -, -, hfl, -⟩ := runPipeline_ok h
    generalize validate_schema inp.mskEpisodes "msk_episodes" inp.mskContract = s1 at hfl
    generalize validate_schema inp.mskQuality "msk_quality" inp.mskContract = s2 at hfl
    generalize validate_schema inp.oncEpisodes "onc_episodes" inp.oncContract = s3 at hfl
    generalize validate_schema inp.oncQuality "onc_quality" inp.oncContract = s4 at hfl
    generalize validate_ranges inp.mskEpisodes inp.mskRanges inp.mskContract = r1 at hfl
    generalize validate_ranges inp.oncEpisodes inp.oncRanges inp.oncContract = r2 at hfl
    subst hfl
    exact pipelineChain_pairwise _ _ _ _ _ _ _ _ _ _ _ _ _ _ _ _ _ _
  · intro c inp fl₁ fl₂ c' c'' h₁ h₂ f hf g hg he
    obtain ⟨a1, x1, m1, a2, x2, o1, -, -, -, -, -, -, hfl1, hc'⟩ := runPipeline_ok h₁
    obtain ⟨b1, y1, n1, b2, y2, p1, -, -, -, -, -, -, hfl2, -⟩ := runPipeline_ok h₂
    generalize validate_schema inp.mskEpisodes "msk_episodes" inp.mskContract = s1
      at hfl1 hfl2 hc'
    generalize validate_schema inp.mskQuality "msk_quality" inp.mskContract = s2
      at hfl1 hfl2 hc'
    generalize validate_schema inp.oncEpisodes "onc_episodes" inp.oncContract = s3
      at hfl1 hfl2 hc'
    generalize validate_schema inp.oncQuality "onc_quality" inp.oncContract = s4
      at hfl1 hfl2 hc'
    generalize validate_ranges inp.mskEpisodes inp.mskRanges inp.mskContract = r1
      at hfl1 hfl2 hc'
    generalize validate_ranges inp.oncEpisodes inp.oncRanges inp.oncContract = r2
      at hfl1 hfl2 hc'
    subst hfl1 hfl2 hc'
    have hb1 := pipelineChain_mem _ _ _ _ _ _ _ _ _ _ _ _ _ _ _ _ _ _ f hf
    have hb2 := pipelineChain_mem _ _ _ _ _ _ _ _ _ _ _ _ _ _ _ _ _ _ g hg
    dsimp only at hb2
    rcases hb1 with ⟨hft, hf1, hf2⟩ | ⟨hft, hf1, hf2⟩ | ⟨hft, hf1, hf2⟩ |
      ⟨hft, hf1, hf2⟩ | ⟨hft, hf1, hf2⟩ | ⟨hft, hf1, hf2⟩ <;>
    rcases hb2 with ⟨hgt, hg1, hg2⟩ | ⟨hgt, hg1, hg2⟩ | ⟨hgt, hg1, hg2⟩ |
      ⟨hgt, hg1, hg2⟩ | ⟨hgt, hg1, hg2⟩ | ⟨hgt, hg1, hg2⟩ <;>
    (rw [hft, hgt] at he
     first
       | exact absurd he (by decide)
       | omega)

def c8Input : PipelineInput :=
  { mskEpisodes := ⟨EXPECTED_COLUMNS "msk_episodes", []⟩,
    mskQuality := ⟨EXPECTED_COLUMNS "msk_quality", []⟩,
    oncEpisodes := ⟨EXPECTED_COLUMNS "onc_episodes", []⟩,
    oncQuality := ⟨EXPECTED_COLUMNS "onc_quality", []⟩,
    oncDrugs := ⟨EXPECTED_COLUMNS "onc_drug_detail", []⟩,
    mskContract := { contractId := "MSK-2024-001", specialty := some "MSK" },
    oncContract := { contractId := "ONC-2024-001", specialty := some "Oncology" } }

def c8PassFlag (t : ℕ) (cid : String) : Flag :=
  { idTag := "SCHEMA", idNum := t, severity := "GREEN", category := "schema",
    metricName := "schema_check", expectedValue := "All checks pass",
    episodeType := .str "ALL", contractId := cid }

def c8FlagsA : List Flag :=
  [c8PassFlag 1 "MSK-2024-001", c8PassFlag 2 "MSK-2024-001",
   c8PassFlag 3 "ONC-2024-001", c8PassFlag 4 "ONC-2024-001"]

def c8CntA : Counters := { schemaC := 4 }

def c8FlagsB : List Flag :=
  [c8PassFlag 5 "MSK-2024-001", c8PassFlag 6 "MSK-2024-001",
   c8PassFlag 7 "ONC-2024-001", c8PassFlag 8 "ONC-2024-001"]

def c8CntB : Counters := { schemaC := 8 }

/-- Witness for C8: two consecutive runs on conforming empty datasets emit
the four GREEN schema-pass flags with ids SCHEMA 1-4 and then SCHEMA 5-8. -/
theorem C8_idempotence_modulo_ids_witness :
    (runPipeline {} c8Input = .ok (c8FlagsA, c8CntA)
     ∧ runPipeline c8CntA c8Input = .ok (c8FlagsB, c8CntB))
    ∧ c8FlagsA.map eraseId = c8FlagsB.map eraseId
    ∧ List.Pairwise (fun f g => f.idTag = g.idTag → f.idNum < g.idNum) c8FlagsA
    ∧ (∀ f ∈ c8FlagsA, ∀ g ∈ c8FlagsB, f.idTag = g.idTag → f.idNum < g.idNum) :=
  ⟨⟨by with_unfolding_all decide, by with_unfolding_all decide⟩,
   C8_idempotence_modulo_ids.1 {} c8CntA c8Input c8FlagsA c8FlagsB c8CntA c8CntB
     (by with_unfolding_all decide) (by with_unfolding_all decide),
   C8_idempotence_modulo_ids.2.1 {} c8Input c8FlagsA c8CntA (by with_unfolding_all decide),
   C8_idempotence_modulo_ids.2.2 {} c8Input c8FlagsA c8FlagsB c8CntA c8CntB
     (by with_unfolding_all decide) (by with_unfolding_all decide)⟩


end VBC
